import Mathlib

/-!
Verification development for the CIE CPU simulator (two-pass assembler and
micro-stepped CPU).  The definitions below are a shallow embedding of the
Python sources:

* `src/common/constants.py`   -> enumerations, `WORD_SIZE`, register indices
* `src/common/instructions.py`-> RTN steps, instruction catalogue
* `src/simulator/ALU.py`      -> `ALU`, comparison flag
* `src/simulator/RAM.py` and `src/cpu/RAM.py` -> `RAM`, `RAMAddress`
* `src/simulator/register.py` -> word registers
* `src/cpu/cpu_io.py`         -> byte-queue I/O ports
* `src/simulator/CU.py`       -> control unit, RTN dispatch, cycle stepping
* `src/cpu/cpu.py`            -> CPU wiring, `load_program`, `step`
* `src/assembler/assembler.py`-> the resumable two-pass assembler

Machine integers are modelled as `Nat` (Python ints are unbounded; the code
masks on write with `% (1 << WORD_SIZE)`); subtractions that can go negative
are computed in `Int` and reduced with Python's nonnegative `%`.  Python
exceptions are modelled with `Except`: `CpuErr` for the CPU side and plain
`String` messages for uncaught assembler-side exceptions, while the
assembler's own `AssemblingError` is caught by `AssemblerStepper.step` exactly
as in the source.  Display-only state (displayer hooks, `last_active` flags,
register control-signal echoes, bus connection lists, stringified
instructions) is omitted: the source never branches on it.
-/

namespace CIE

/-- Word size of the simulated machine, from `common/constants.py`. -/
def WORD_SIZE : Nat := 16

/-- Python `x % (1 << WORD_SIZE)` for a nonnegative value. -/
def wordMask (x : Nat) : Nat := x % (1 <<< WORD_SIZE)

/-- Python `x % (1 << WORD_SIZE)` on a possibly negative int (Python's `%`
returns a value in `[0, 65536)` for a positive modulus). -/
def intMask (x : Int) : Nat := (x % (1 <<< WORD_SIZE : Nat)).toNat

/-- Component labels from `common/constants.py` (`ComponentName`). -/
inductive ComponentName where
  | MAR | MDR | PC | CIR | ACC | IX
  | CU | ALU | CMP_FLAG
  | OPERAND | IN | OUT
  | RAM_ADDRESS | RAM_DATA | INNER_DATA_BUS | ADDRESS_BUS
  deriving DecidableEq, Repr

/-- Control signals from `common/constants.py` (`ControlSignal`). -/
inductive ControlSignal where
  | READ | WRITE
  | ADD | SUB | AND | OR | XOR | CMP
  | INC | DEC
  | LSL | LSR
  deriving DecidableEq, Repr

/-- The string value of a control signal (a `StrEnum` in the source); used in
error-message interpolation. -/
def ControlSignal.valueStr : ControlSignal → String
  | .READ => "r" | .WRITE => "w"
  | .ADD => "add" | .SUB => "sub" | .AND => "and" | .OR => "or"
  | .XOR => "xor" | .CMP => "cmp"
  | .INC => "inc" | .DEC => "dec"
  | .LSL => "lsl" | .LSR => "lsr"

/-- Python rendering of an optional control signal inside an f-string. -/
def ctrlStr : Option ControlSignal → String
  | none => "None"
  | some c => c.valueStr

/-- Addressing modes from `common/constants.py` (`AddressingMode`). -/
inductive AddressingMode where
  | IMMEDIATE | DIRECT | INDIRECT | REGISTER | INDEXED | NONE
  deriving DecidableEq, Repr

/-- Cycle phases from `common/constants.py` (`CyclePhase`). -/
inductive CyclePhase where
  | FETCH | DECODE | EXECUTE
  deriving DecidableEq, Repr

/-- Successor in the infinite `itertools.cycle([FETCH, DECODE, EXECUTE])`.
The observable state of that module-global iterator is the next phase it will
yield, so the iterator is embedded as a `CyclePhase` value and a draw returns
the current value and advances to `next`. -/
def CyclePhase.next : CyclePhase → CyclePhase
  | .FETCH => .DECODE
  | .DECODE => .EXECUTE
  | .EXECUTE => .FETCH

/-- State of `CYCLE_PHASES` in a freshly started interpreter: `FETCH` is the
first element the iterator yields. -/
def sessionStart : CyclePhase := CyclePhase.FETCH

/-- The `RegisterIndex` table from `common/constants.py`: register name to
operand index. -/
def RegisterIndex : List (ComponentName × Nat) :=
  [(.ACC, 0), (.IX, 1), (.PC, 2), (.MAR, 3), (.MDR, 4), (.CIR, 5)]

/-- Reverse lookup in `RegisterIndex` (the `for key, value in ... if value ==`
loops in the CU): first name whose index matches. -/
def registerNameOfIndex (i : Nat) : Option ComponentName :=
  (RegisterIndex.find? (fun p => p.2 = i)).map Prod.fst

/-- RTN step variants from `common/instructions.py`. -/
inductive RTNStep where
  | simpleTransfer (source destination : ComponentName)
  | conditionalTransfer (source destination : ComponentName) (condition : Bool)
  | memoryAccess (is_address : Bool) (control : ControlSignal)
  | aluOperation (source : ComponentName) (control : ControlSignal)
  | regOperation (destination : ComponentName) (control : ControlSignal)
      (source : Option ComponentName)
  deriving DecidableEq, Repr

/-- Python exceptions that can escape the CPU-side code. -/
inductive CpuErr where
  | abnormalComponentUse (msg : String)
  | valueError (msg : String)
  | typeError
  | keyError
  deriving DecidableEq, Repr

/-! ## ALU (`simulator/ALU.py`, identical logic in `cpu/ALU.py`) -/

/-- ALU state: armed control signal, the two operands, the stored result and
the comparison-flag component.  The flag value is kept as a Python int (bools
are ints in Python: `True == 1`), which is what `FlagComponent.value` holds
after `write`. -/
structure ALU where
  control : Option ControlSignal := none
  acc : Nat := 0
  operand : Nat := 0
  result : Nat := 0
  flagVal : Nat := 0
  deriving Repr

/-- The `ALU.set_mode` method. -/
def ALU.set_mode (a : ALU) (control : Option ControlSignal) : ALU :=
  { a with control := control }

/-- The `ALU.set_operands` method. -/
def ALU.set_operands (a : ALU) (acc operand : Nat) : ALU :=
  { a with acc := acc, operand := operand }

/-- The `ALU._set_result` helper: store the result wrapped to 16 bits. -/
def ALU._set_result (a : ALU) (result : Int) : ALU :=
  { a with result := intMask result }

/-- The `ALU.compute` method: ADD/SUB/AND/OR/XOR store a masked result, CMP
writes the flag, and any other (or unset) control raises
`AbnormalComponentUseError`. -/
def ALU.compute (a : ALU) : Except CpuErr ALU :=
  if a.control = some .ADD then .ok (a._set_result ((a.acc : Int) + a.operand))
  else if a.control = some .SUB then .ok (a._set_result ((a.acc : Int) - a.operand))
  else if a.control = some .AND then .ok (a._set_result (Nat.land a.acc a.operand))
  else if a.control = some .OR then .ok (a._set_result (Nat.lor a.acc a.operand))
  else if a.control = some .XOR then .ok (a._set_result (Nat.xor a.acc a.operand))
  else if a.control = some .CMP then
    .ok { a with flagVal := if a.acc = a.operand then 1 else 0 }
  else
    .error (.abnormalComponentUse
      ("ALU compute() called with invalid or unset control signal: " ++ ctrlStr a.control))

/-! ## RAM and RAMAddress (`simulator/RAM.py`, same logic in `cpu/RAM.py`) -/

/-- The RAM address component: `write` stores the argument as given (no
masking in the source), `read` returns it. -/
structure RAMAddress where
  address : Nat := 0
  deriving Repr

/-- The `RAMAddress.write` method: stores the incoming address unmasked. -/
def RAMAddress.write (_r : RAMAddress) (address : Nat) : RAMAddress :=
  { address := address }

/-- The `RAMAddress.read` method. -/
def RAMAddress.read (r : RAMAddress) : Nat := r.address

/-- RAM memory: the Python dict is initialised with keys `0 .. 2^16 - 1` all
zero; `dict.get` returns `None` for any other key.  Modelled as a function to
`Option Nat`. -/
def ramInit : Nat → Option Nat :=
  fun a => if a < 1 <<< WORD_SIZE then some 0 else none

/-- The `RAM.read` method: value at the companion address, `None` if the key
is absent. -/
def ramRead (memory : Nat → Option Nat) (address_comp : RAMAddress) : Option Nat :=
  memory address_comp.read

/-- The `RAM.write` method: store the data masked to 16 bits at the companion
address (a plain dict assignment, so any key may be created). -/
def ramWrite (memory : Nat → Option Nat) (address_comp : RAMAddress) (data : Nat) :
    Nat → Option Nat :=
  fun a => if a = address_comp.read then some (wordMask data) else memory a

/-! ## Registers (`simulator/register.py`)

A register stores a word that is wrapped to 16 bits whenever `_set_value`
runs; `read` returns the stored value.  The control-signal echo that the
methods also record is display-only and omitted (see the header note), so the
register state is its value. -/

/-- The `Register.write` method on the stored value: mask and store. -/
def registerWrite (value : Int) : Nat := intMask value

/-- The `Register.inc` method on the stored value. -/
def registerInc (value : Nat) (offset : Nat) : Nat := wordMask (value + offset)

/-- The `Register.dec` method on the stored value. -/
def registerDec (value : Nat) (offset : Nat) : Nat := intMask ((value : Int) - offset)

/-! ## I/O ports (`cpu/cpu_io.py`) -/

/-- An I/O port holds a string of queued characters; modelled as the list of
their ordinals. -/
structure IOPort where
  contents : List Nat
  deriving DecidableEq, Repr

/-- Ordinals of the characters of a string (`ord` of each character). -/
def strOrds (s : String) : List Nat := s.toList.map Char.toNat

/-- Default queue contents of a freshly constructed port (`contents: str =
"example"`). -/
def defaultIOContents : List Nat := strOrds "example"

/-- The `IO.read` method: dequeue the head ordinal, or `None` when empty (the
port itself is left unchanged in the empty case). -/
def IOPort.read (p : IOPort) : Option Nat × IOPort :=
  match p.contents with
  | [] => (none, p)
  | c :: rest => (some c, { contents := rest })

/-- The `IO.write` method: append `chr(data)` to the queue. -/
def IOPort.write (p : IOPort) (data : Nat) : IOPort :=
  { contents := p.contents ++ [data] }

/-! ## Instruction catalogue (`common/instructions.py`) -/

/-- Instruction metadata (`InstructionDefinition`). -/
structure InstructionDefinition where
  mnemonic : String
  opcode : Nat
  addressing_mode : AddressingMode
  description : String
  rtn_sequence : List RTNStep
  long_operand : Bool := true
  deriving DecidableEq, Repr

/-- Shared RTN template `direct_addressing_RTNSteps`. -/
def direct_addressing_RTNSteps : List RTNStep :=
  [ .simpleTransfer .MDR .MAR,
    .memoryAccess true .READ,
    .memoryAccess false .READ ]

/-- Shared RTN template `indirect_addressing_RTNSteps`. -/
def indirect_addressing_RTNSteps : List RTNStep :=
  direct_addressing_RTNSteps ++
  [ .simpleTransfer .MDR .MAR,
    .memoryAccess true .READ,
    .memoryAccess false .READ ]

/-- Shared RTN template `indexed_addressing_RTNSteps`. -/
def indexed_addressing_RTNSteps : List RTNStep :=
  [ .simpleTransfer .MDR .MAR,
    .regOperation .MAR .INC (some .IX),
    .memoryAccess true .READ,
    .memoryAccess false .READ ]

/-- The `LDM` definition. -/
def LDM : InstructionDefinition :=
  { mnemonic := "LDM", opcode := 0, addressing_mode := .IMMEDIATE,
    description := "Load immediate value into accumulator",
    rtn_sequence := [.simpleTransfer .MDR .ACC] }

/-- The `LDD` definition. -/
def LDD : InstructionDefinition :=
  { mnemonic := "LDD", opcode := 1, addressing_mode := .DIRECT,
    description := "Load value from memory into accumulator",
    rtn_sequence := direct_addressing_RTNSteps ++ [.simpleTransfer .MDR .ACC] }

/-- The `LDI` definition. -/
def LDI : InstructionDefinition :=
  { mnemonic := "LDI", opcode := 2, addressing_mode := .INDIRECT,
    description := "Load value from memory address pointed to by operand into accumulator",
    rtn_sequence := indirect_addressing_RTNSteps ++ [.simpleTransfer .MDR .ACC] }

/-- The `LDX` definition. -/
def LDX : InstructionDefinition :=
  { mnemonic := "LDX", opcode := 3, addressing_mode := .INDEXED,
    description := "Load value from memory address computed by adding index register to operand into accumulator",
    rtn_sequence := indexed_addressing_RTNSteps ++ [.simpleTransfer .MDR .ACC] }

/-- The `LDR` definition. -/
def LDR : InstructionDefinition :=
  { mnemonic := "LDR", opcode := 4, addressing_mode := .IMMEDIATE,
    description := "Load immediate value into index register",
    rtn_sequence := [.simpleTransfer .MDR .IX] }

/-- The `MOV` definition. -/
def MOV : InstructionDefinition :=
  { mnemonic := "MOV", opcode := 5, addressing_mode := .REGISTER,
    description := "Move value from ACC to given register",
    long_operand := false,
    rtn_sequence := [.simpleTransfer .ACC .OPERAND] }

/-- The `STO` definition. -/
def STO : InstructionDefinition :=
  { mnemonic := "STO", opcode := 6, addressing_mode := .DIRECT,
    description := "Store value from accumulator into memory",
    rtn_sequence :=
      [ .simpleTransfer .MDR .MAR,
        .simpleTransfer .ACC .MDR,
        .memoryAccess true .READ,
        .memoryAccess false .WRITE ] }

/-- The `STI` definition. -/
def STI : InstructionDefinition :=
  { mnemonic := "STI", opcode := 30, addressing_mode := .INDIRECT,
    description := "Store ACC into memory address retrieved through operand pointer",
    rtn_sequence :=
      [ .simpleTransfer .MDR .MAR,
        .memoryAccess true .READ,
        .memoryAccess false .READ,
        .simpleTransfer .MDR .MAR,
        .simpleTransfer .ACC .MDR,
        .memoryAccess true .READ,
        .memoryAccess false .WRITE ] }

/-- The `STX` definition. -/
def STX : InstructionDefinition :=
  { mnemonic := "STX", opcode := 31, addressing_mode := .INDEXED,
    description := "Store ACC into memory at address computed by IX plus operand",
    rtn_sequence :=
      [ .simpleTransfer .MDR .MAR,
        .regOperation .MAR .INC (some .IX),
        .simpleTransfer .ACC .MDR,
        .memoryAccess true .READ,
        .memoryAccess false .WRITE ] }

/-- The `ADD1` (direct) definition. -/
def ADD1 : InstructionDefinition :=
  { mnemonic := "ADD", opcode := 7, addressing_mode := .DIRECT,
    description := "Add value from memory to accumulator",
    rtn_sequence := direct_addressing_RTNSteps ++
      [ .aluOperation .MDR .ADD, .simpleTransfer .ALU .ACC ] }

/-- The `ADD2` (immediate) definition. -/
def ADD2 : InstructionDefinition :=
  { mnemonic := "ADD", opcode := 8, addressing_mode := .IMMEDIATE,
    description := "Add immediate value to accumulator",
    rtn_sequence := [ .aluOperation .MDR .ADD, .simpleTransfer .ALU .ACC ] }

/-- The `SUB1` (direct) definition. -/
def SUB1 : InstructionDefinition :=
  { mnemonic := "SUB", opcode := 9, addressing_mode := .DIRECT,
    description := "Subtract value from memory from accumulator",
    rtn_sequence := direct_addressing_RTNSteps ++
      [ .aluOperation .MDR .SUB, .simpleTransfer .ALU .ACC ] }

/-- The `SUB2` (immediate) definition. -/
def SUB2 : InstructionDefinition :=
  { mnemonic := "SUB", opcode := 10, addressing_mode := .IMMEDIATE,
    description := "Subtract immediate value from accumulator",
    rtn_sequence := [ .aluOperation .MDR .SUB, .simpleTransfer .ALU .ACC ] }

/-- The `INC` definition. -/
def INC : InstructionDefinition :=
  { mnemonic := "INC", opcode := 11, addressing_mode := .REGISTER,
    description := "Increment register (ACC, IX, CU) by 1",
    long_operand := false,
    rtn_sequence := [ .regOperation .OPERAND .INC none ] }

/-- The `DEC` definition. -/
def DEC : InstructionDefinition :=
  { mnemonic := "DEC", opcode := 12, addressing_mode := .REGISTER,
    description := "Decrement register (ACC, IX, CU) by 1",
    long_operand := false,
    rtn_sequence := [ .regOperation .OPERAND .DEC none ] }

/-- The `JMP` definition. -/
def JMP : InstructionDefinition :=
  { mnemonic := "JMP", opcode := 13, addressing_mode := .IMMEDIATE,
    description := "Jump to address in operand",
    rtn_sequence := [ .simpleTransfer .MDR .PC ] }

/-- The `CMP1` (direct) definition. -/
def CMP1 : InstructionDefinition :=
  { mnemonic := "CMP", opcode := 14, addressing_mode := .DIRECT,
    description := "Compare value from memory with accumulator",
    rtn_sequence := direct_addressing_RTNSteps ++ [ .aluOperation .MDR .CMP ] }

/-- The `CMP2` (immediate) definition. -/
def CMP2 : InstructionDefinition :=
  { mnemonic := "CMP", opcode := 15, addressing_mode := .IMMEDIATE,
    description := "Compare immediate value with accumulator",
    rtn_sequence := [ .aluOperation .MDR .CMP ] }

/-- The `CMI` definition. -/
def CMI : InstructionDefinition :=
  { mnemonic := "CMI", opcode := 16, addressing_mode := .INDIRECT,
    description := "Compare ACC to the value at the memory address pointed to by operand",
    rtn_sequence := indirect_addressing_RTNSteps ++ [ .aluOperation .MDR .CMP ] }

/-- The `JPE` definition. -/
def JPE : InstructionDefinition :=
  { mnemonic := "JPE", opcode := 17, addressing_mode := .IMMEDIATE,
    description := "Jump to address in operand if E flag is set",
    rtn_sequence := [ .conditionalTransfer .MDR .PC true ] }

/-- The `JPN` definition. -/
def JPN : InstructionDefinition :=
  { mnemonic := "JPN", opcode := 18, addressing_mode := .IMMEDIATE,
    description := "Jump to address in operand if E flag is cleared",
    rtn_sequence := [ .conditionalTransfer .MDR .PC false ] }

/-- The `IN` instruction definition (`IN` in the source). -/
def IN_def : InstructionDefinition :=
  { mnemonic := "IN", opcode := 19, addressing_mode := .NONE,
    description := "Input value from input queue into accumulator",
    long_operand := false,
    rtn_sequence := [ .simpleTransfer .IN .ACC ] }

/-- The `OUT` instruction definition (`OUT` in the source). -/
def OUT_def : InstructionDefinition :=
  { mnemonic := "OUT", opcode := 20, addressing_mode := .NONE,
    description := "Output value from accumulator to output queue",
    long_operand := false,
    rtn_sequence := [ .simpleTransfer .ACC .OUT ] }

/-- The `END` instruction definition (`END` in the source). -/
def END_def : InstructionDefinition :=
  { mnemonic := "END", opcode := 21, addressing_mode := .NONE,
    description := "Halt program execution",
    long_operand := false,
    rtn_sequence := [] }

/-- The `AND1` (immediate) definition. -/
def AND1 : InstructionDefinition :=
  { mnemonic := "AND", opcode := 22, addressing_mode := .IMMEDIATE,
    description := "Bitwise AND immediate value with accumulator",
    rtn_sequence := [ .aluOperation .MDR .AND, .simpleTransfer .ALU .ACC ] }

/-- The `AND2` (direct) definition. -/
def AND2 : InstructionDefinition :=
  { mnemonic := "AND", opcode := 23, addressing_mode := .DIRECT,
    description := "Bitwise AND value from memory with accumulator",
    rtn_sequence := direct_addressing_RTNSteps ++
      [ .aluOperation .MDR .AND, .simpleTransfer .ALU .ACC ] }

/-- The `XOR1` (immediate) definition. -/
def XOR1 : InstructionDefinition :=
  { mnemonic := "XOR", opcode := 24, addressing_mode := .IMMEDIATE,
    description := "Bitwise XOR immediate value with accumulator",
    rtn_sequence := [ .aluOperation .MDR .XOR, .simpleTransfer .ALU .ACC ] }

/-- The `XOR2` (direct) definition. -/
def XOR2 : InstructionDefinition :=
  { mnemonic := "XOR", opcode := 25, addressing_mode := .DIRECT,
    description := "Bitwise XOR value from memory with accumulator",
    rtn_sequence := direct_addressing_RTNSteps ++
      [ .aluOperation .MDR .XOR, .simpleTransfer .ALU .ACC ] }

/-- The `OR1` (immediate) definition. -/
def OR1 : InstructionDefinition :=
  { mnemonic := "OR", opcode := 26, addressing_mode := .IMMEDIATE,
    description := "Bitwise OR immediate value with accumulator",
    rtn_sequence := [ .aluOperation .MDR .OR, .simpleTransfer .ALU .ACC ] }

/-- The `OR2` (direct) definition. -/
def OR2 : InstructionDefinition :=
  { mnemonic := "OR", opcode := 27, addressing_mode := .DIRECT,
    description := "Bitwise OR value from memory with accumulator",
    rtn_sequence := direct_addressing_RTNSteps ++
      [ .aluOperation .MDR .OR, .simpleTransfer .ALU .ACC ] }

/-- The `LSL` definition. -/
def LSL : InstructionDefinition :=
  { mnemonic := "LSL", opcode := 28, addressing_mode := .IMMEDIATE,
    description := "Logical shift left accumulator by immediate value",
    long_operand := false,
    rtn_sequence := [ .aluOperation .CU .LSL, .simpleTransfer .ALU .ACC ] }

/-- The `LSR` definition. -/
def LSR : InstructionDefinition :=
  { mnemonic := "LSR", opcode := 29, addressing_mode := .IMMEDIATE,
    description := "Logical shift right accumulator by immediate value",
    long_operand := false,
    rtn_sequence := [ .aluOperation .CU .LSR, .simpleTransfer .ALU .ACC ] }

/-- The `instruction_set` registry: opcode/definition pairs in the dict's
insertion order. -/
def instruction_set : List (Nat × InstructionDefinition) :=
  [ (LDM.opcode, LDM), (LDD.opcode, LDD), (LDI.opcode, LDI), (LDX.opcode, LDX),
    (LDR.opcode, LDR), (MOV.opcode, MOV), (STO.opcode, STO),
    (ADD1.opcode, ADD1), (ADD2.opcode, ADD2), (SUB1.opcode, SUB1), (SUB2.opcode, SUB2),
    (INC.opcode, INC), (DEC.opcode, DEC), (JMP.opcode, JMP),
    (CMP1.opcode, CMP1), (CMP2.opcode, CMP2), (CMI.opcode, CMI),
    (JPE.opcode, JPE), (JPN.opcode, JPN),
    (IN_def.opcode, IN_def), (OUT_def.opcode, OUT_def), (END_def.opcode, END_def),
    (AND1.opcode, AND1), (AND2.opcode, AND2), (XOR1.opcode, XOR1), (XOR2.opcode, XOR2),
    (OR1.opcode, OR1), (OR2.opcode, OR2), (LSL.opcode, LSL), (LSR.opcode, LSR),
    (STI.opcode, STI), (STX.opcode, STX) ]

/-- Dictionary lookup `instruction_set.get(opcode)`. -/
def instructionSetGet (opcode : Nat) : Option InstructionDefinition :=
  (instruction_set.find? (fun p => p.1 = opcode)).map Prod.snd

/-- The `get_instruction_by_mnemonic` helper: every definition with the given
mnemonic, in registry order. -/
def get_instruction_by_mnemonic (mnemonic : String) : List InstructionDefinition :=
  (instruction_set.filter (fun p => p.2.mnemonic = mnemonic)).map Prod.snd

/-- The canonical `FETCH_RTNSteps` sequence. -/
def FETCH_RTNSteps : List RTNStep :=
  [ .simpleTransfer .PC .MAR,
    .memoryAccess true .READ,
    .memoryAccess false .READ,
    .simpleTransfer .MDR .CIR,
    .regOperation .PC .INC none ]

/-- The canonical `DECODE_RTNSteps` sequence. -/
def DECODE_RTNSteps : List RTNStep :=
  [ .simpleTransfer .CIR .CU ]

/-- The canonical `FETCH_LONG_OPERAND_RTNSteps` sequence. -/
def FETCH_LONG_OPERAND_RTNSteps : List RTNStep :=
  [ .simpleTransfer .CIR .CU,
    .simpleTransfer .PC .MAR,
    .memoryAccess true .READ,
    .memoryAccess false .READ,
    .regOperation .PC .INC none ]

/-! ## CPU state (`cpu/cpu.py` wiring, `simulator/CU.py` control unit) -/

/-- Complete CPU state: the six word registers, the ALU (with the shared
comparison flag), RAM with its companion address component, the two I/O ports
and the control-unit decode/RTN state, plus the `cycles` counter kept by
`CPU.step`. -/
structure CpuState where
  mar : Nat := 0
  mdr : Nat := 0
  pc : Nat := 0
  cir : Nat := 0
  acc : Nat := 0
  ix : Nat := 0
  alu : ALU := {}
  ramAddress : Nat := 0
  ram : Nat → Option Nat := ramInit
  ioIn : IOPort := { contents := defaultIOContents }
  ioOut : IOPort := { contents := defaultIOContents }
  binary_instruction : Option Nat := none
  opcode : Option Nat := none
  operand : Option Nat := none
  RTN_sequence : List RTNStep := []
  RTN_sequence_index : Nat := 0
  current_phase : CyclePhase := .FETCH
  cycles : Nat := 0

/-- Read the value of a register component by name, when the name denotes one
of the six word registers. -/
def CpuState.regValue (s : CpuState) : ComponentName → Option Nat
  | .MAR => some s.mar
  | .MDR => some s.mdr
  | .PC => some s.pc
  | .CIR => some s.cir
  | .ACC => some s.acc
  | .IX => some s.ix
  | _ => none

/-- Store a value into a register component by name (no masking here; callers
apply the register methods). -/
def CpuState.setReg (s : CpuState) : ComponentName → Nat → Option CpuState
  | .MAR, v => some { s with mar := v }
  | .MDR, v => some { s with mdr := v }
  | .PC, v => some { s with pc := v }
  | .CIR, v => some { s with cir := v }
  | .ACC, v => some { s with acc := v }
  | .IX, v => some { s with ix := v }
  | _, _ => none

/-- The `CU.write` / `CU.set_instruction` pair: record the word, split it into
opcode (high byte) and operand (low byte), and queue the long-operand fetch
when the decoded instruction needs it.  An unknown opcode raises `ValueError`
from `get_instruction_definition`. -/
def cuWrite (s : CpuState) (data : Nat) : Except CpuErr CpuState :=
  let s := { s with binary_instruction := some data,
                    opcode := some (data >>> 8),
                    operand := some (data &&& 255) }
  match instructionSetGet (data >>> 8) with
  | none => .error (.valueError ("Invalid opcode: " ++ toString (data >>> 8)))
  | some d =>
    .ok (if d.long_operand then { s with RTN_sequence := FETCH_LONG_OPERAND_RTNSteps } else s)

/-- Reading a component through the `components` dictionary: registers return
their value, `CU.read` returns the operand (or 0), `ALU.read` the stored
result, the flag its raw value, I/O ports dequeue (returning `None` when
empty), `RAM.read` looks the current address up in the memory dict, buses
raise `AbnormalComponentUseError`, and the pseudo-name `OPERAND` is not a key
of the dictionary (`KeyError`). -/
def readComponent (s : CpuState) : ComponentName → Except CpuErr (Option Nat × CpuState)
  | .MAR => .ok (some s.mar, s)
  | .MDR => .ok (some s.mdr, s)
  | .PC => .ok (some s.pc, s)
  | .CIR => .ok (some s.cir, s)
  | .ACC => .ok (some s.acc, s)
  | .IX => .ok (some s.ix, s)
  | .CU => .ok (some (s.operand.getD 0), s)
  | .ALU => .ok (some s.alu.result, s)
  | .CMP_FLAG => .ok (some s.alu.flagVal, s)
  | .IN => .ok (s.ioIn.read.1, { s with ioIn := s.ioIn.read.2 })
  | .OUT => .ok (s.ioOut.read.1, { s with ioOut := s.ioOut.read.2 })
  | .RAM_ADDRESS => .ok (some s.ramAddress, s)
  | .RAM_DATA => .ok (ramRead s.ram { address := s.ramAddress }, s)
  | .INNER_DATA_BUS => .error (.abnormalComponentUse "Buses should not be read directly")
  | .ADDRESS_BUS => .error (.abnormalComponentUse "Buses should not be read directly")
  | .OPERAND => .error .keyError

/-- Writing a component through the `components` dictionary: registers mask
and store, `CU.write` decodes, ports append, `RAMAddress.write` stores the
address unmasked, `RAM.write` stores masked at the current address, the flag
stores the raw value, the ALU and the buses raise
`AbnormalComponentUseError`, and `OPERAND` is a `KeyError`. -/
def writeComponent (s : CpuState) : ComponentName → Nat → Except CpuErr CpuState
  | .MAR, v => .ok { s with mar := wordMask v }
  | .MDR, v => .ok { s with mdr := wordMask v }
  | .PC, v => .ok { s with pc := wordMask v }
  | .CIR, v => .ok { s with cir := wordMask v }
  | .ACC, v => .ok { s with acc := wordMask v }
  | .IX, v => .ok { s with ix := wordMask v }
  | .CU, v => cuWrite s v
  | .ALU, _ => .error (.abnormalComponentUse "ALU does not support direct writes.")
  | .CMP_FLAG, v => .ok { s with alu := { s.alu with flagVal := v } }
  | .IN, v => .ok { s with ioIn := s.ioIn.write v }
  | .OUT, v => .ok { s with ioOut := s.ioOut.write v }
  | .RAM_ADDRESS, v => .ok { s with ramAddress := (RAMAddress.write { address := s.ramAddress } v).address }
  | .RAM_DATA, v => .ok { s with ram := ramWrite s.ram { address := s.ramAddress } v }
  | .INNER_DATA_BUS, _ => .error (.abnormalComponentUse "Buses should not be written directly")
  | .ADDRESS_BUS, _ => .error (.abnormalComponentUse "Buses should not be written directly")
  | .OPERAND, _ => .error .keyError

/-- The `CU._resolve_destination_name` helper: the pseudo-name `OPERAND` is
replaced by the register whose index equals the current operand. -/
def resolveDestinationName (s : CpuState) (destination : ComponentName) :
    Except CpuErr ComponentName :=
  if destination ≠ ComponentName.OPERAND then .ok destination
  else match s.operand with
    | none => .error (.valueError "Operand is not set; cannot determine destination register.")
    | some idx =>
      match registerNameOfIndex idx with
      | some k => .ok k
      | none => .error (.valueError ("Invalid register index in operand: " ++ toString idx))

/-- The `CU._get_dest` helper (used by register operations): like
`resolveDestinationName`, but when no register matches the index the source
falls through to a `components[OPERAND]` lookup, which is a `KeyError`. -/
def getDestName (s : CpuState) (destination : ComponentName) :
    Except CpuErr ComponentName :=
  if destination ≠ ComponentName.OPERAND then .ok destination
  else match s.operand with
    | none => .error (.valueError "Operand is not set; cannot determine destination register.")
    | some idx =>
      match registerNameOfIndex idx with
      | some k => .ok k
      | none => .error .keyError

/-- The `CU._evaluate_condition` helper: Python compares the boolean
`condition` to the stored flag value with `==` (`True == 1`, `False == 0`). -/
def evaluateCondition (s : CpuState) (condition : Bool) : Bool :=
  (if condition then 1 else 0) = s.alu.flagVal

/-- The `CU._handle_simple_transfer` handler: look up the source (a `KeyError`
for the pseudo-name `OPERAND`), resolve the destination, read, then write.
Writing the `None` produced by an empty input port raises `TypeError` (from
`None % 65536` in `Register._set_value`) before any value is stored. -/
def handleSimpleTransfer (s : CpuState) (source destination : ComponentName) :
    Except CpuErr CpuState :=
  if source = ComponentName.OPERAND then .error .keyError
  else
    match resolveDestinationName s destination with
    | .error e => .error e
    | .ok destName =>
      match readComponent s source with
      | .error e => .error e
      | .ok (data, s₁) =>
        match data with
        | none => .error .typeError
        | some d => writeComponent s₁ destName d

/-- The `CU._handle_conditional_transfer` handler. -/
def handleConditionalTransfer (s : CpuState) (source destination : ComponentName)
    (condition : Bool) : Except CpuErr CpuState :=
  if evaluateCondition s condition then handleSimpleTransfer s source destination
  else .ok s

/-- The `CU._handle_memory_access` handler: the address step copies MAR into
`RAMAddress`; the data step moves a word between MDR and the RAM cell at the
current address (a missing key read yields `None`, which faults in
`MDR.write`). -/
def handleMemoryAccess (s : CpuState) (is_address : Bool) (control : ControlSignal) :
    Except CpuErr CpuState :=
  if is_address then
    .ok { s with ramAddress := (RAMAddress.write { address := s.ramAddress } s.mar).address }
  else if control = .WRITE then
    .ok { s with ram := ramWrite s.ram { address := s.ramAddress } s.mdr }
  else
    match ramRead s.ram { address := s.ramAddress } with
    | none => .error .typeError
    | some d => .ok { s with mdr := wordMask d }

/-- The `CU._handle_alu_operation` handler: feed ACC and the source component
into the ALU, arm the control signal, and compute.  A `None` source value
would fault inside `compute`. -/
def handleAluOperation (s : CpuState) (source : ComponentName) (control : ControlSignal) :
    Except CpuErr CpuState :=
  if source = ComponentName.OPERAND then .error .keyError
  else
    match readComponent s source with
    | .error e => .error e
    | .ok (d, s₁) =>
      match d with
      | none => .error .typeError
      | some dv =>
        match ((s₁.alu.set_operands s₁.acc dv).set_mode (some control)).compute with
        | .error e => .error e
        | .ok alu₂ => .ok { s₁ with alu := alu₂ }

/-- The new register value computed by `CU._handle_reg_operation`: `inc` for
INC, `dec` for DEC, the unchanged value otherwise. -/
def regOpNewValue (control : ControlSignal) (v offset : Nat) : Nat :=
  if control = .INC then registerInc v offset
  else if control = .DEC then registerDec v offset
  else v

/-- The offset computation of `CU._handle_reg_operation`: 1 when the step
carries no source, otherwise the value read from the source register. -/
def regOperationOffset (s : CpuState) (source : Option ComponentName) :
    Except CpuErr (Nat × CpuState) :=
  match source with
  | none => .ok ((1 : Nat), s)
  | some src =>
    if src = ComponentName.OPERAND then .error .keyError
    else
      match readComponent s src with
      | .error e => .error e
      | .ok (d, s') =>
        match d with
        | none => .error .typeError
        | some dv => .ok (dv, s')

/-- The `CU._handle_reg_operation` handler: resolve the destination register
(possibly through the operand index), read the optional offset source
(default 1), and apply `inc`/`dec` with 16-bit wrapping. -/
def handleRegOperation (s : CpuState) (destination : ComponentName)
    (control : ControlSignal) (source : Option ComponentName) :
    Except CpuErr CpuState :=
  match getDestName s destination with
  | .error e => .error e
  | .ok destName =>
    match regOperationOffset s source with
    | .error e => .error e
    | .ok (offset, s₁) =>
      match s₁.regValue destName with
      | none => .error .typeError
      | some v =>
        match s₁.setReg destName (regOpNewValue control v offset) with
        | none => .error .typeError
        | some s₂ => .ok s₂

/-- The `CU.execute_RTN_step` dispatcher (the active-flag bookkeeping it also
performs is display-only). -/
def execute_RTN_step (s : CpuState) : RTNStep → Except CpuErr CpuState
  | .simpleTransfer src dst => handleSimpleTransfer s src dst
  | .conditionalTransfer src dst cond => handleConditionalTransfer s src dst cond
  | .memoryAccess isAddr ctl => handleMemoryAccess s isAddr ctl
  | .aluOperation src ctl => handleAluOperation s src ctl
  | .regOperation dst ctl src => handleRegOperation s dst ctl src

/-- The `CU.enter_phase` method: reset the sequence index and install the RTN
sequence of the phase being entered; entering EXECUTE without a decoded (or
with an unknown) opcode raises `ValueError`, and END installs the empty
sequence. -/
def enter_phase (s : CpuState) (phase : CyclePhase) : Except CpuErr CpuState :=
  match phase with
  | .FETCH => .ok { s with RTN_sequence_index := 0, RTN_sequence := FETCH_RTNSteps }
  | .DECODE => .ok { s with RTN_sequence_index := 0, RTN_sequence := DECODE_RTNSteps }
  | .EXECUTE =>
    match s.opcode with
    | none => .error (.valueError "Cannot enter EXECUTE phase without a valid opcode.")
    | some op =>
      match instructionSetGet op with
      | none => .error (.valueError ("Invalid opcode: " ++ toString op))
      | some d =>
        .ok { s with RTN_sequence_index := 0,
                     RTN_sequence := if d.mnemonic = "END" then [] else d.rtn_sequence }

/-- The `CU.step_RTNSeries` method: execute the RTN step at the current index
(if any) and advance the index; returns whether the (possibly replaced)
sequence is now exhausted. -/
def step_RTNSeries (s : CpuState) : Except CpuErr (CpuState × Bool) :=
  if s.RTN_sequence = [] then .ok (s, true)
  else if h : s.RTN_sequence_index < s.RTN_sequence.length then
    match execute_RTN_step s (s.RTN_sequence.get ⟨s.RTN_sequence_index, h⟩) with
    | .error e => .error e
    | .ok s₁ =>
      let s₂ := { s₁ with RTN_sequence_index := s₁.RTN_sequence_index + 1 }
      .ok (s₂, decide (s₂.RTN_sequence.length ≤ s₂.RTN_sequence_index))
  else .ok (s, true)

/-- A session state couples the CPU with the observable position of the
module-global `CYCLE_PHASES` iterator (the next phase it will yield). -/
abbrev SessState := CpuState × CyclePhase

/-- The `CU.step_cycle` method: report halt on an empty sequence; on sequence
exhaustion draw the next phase from the shared `CYCLE_PHASES` iterator and
enter it (halting if END produced an empty sequence); otherwise execute one
RTN step. -/
def step_cycle (ss : SessState) : Except CpuErr (SessState × Bool) :=
  if ss.1.RTN_sequence = [] then .ok ((ss.1, ss.2), true)
  else if ss.1.RTN_sequence.length ≤ ss.1.RTN_sequence_index then
    match enter_phase { ss.1 with current_phase := ss.2 } ss.2 with
    | .error e => .error e
    | .ok s₂ =>
      if s₂.RTN_sequence = [] then .ok ((s₂, ss.2.next), true)
      else
        match step_RTNSeries s₂ with
        | .error e => .error e
        | .ok (s₃, _) => .ok ((s₃, ss.2.next), false)
  else
    match step_RTNSeries ss.1 with
    | .error e => .error e
    | .ok (s₃, _) => .ok ((s₃, ss.2), false)

/-- The `CPU.step` method: delegate to `step_cycle` and count one more cycle
(the increment is skipped when the underlying call raises, since the
exception propagates). -/
def CPU_step (ss : SessState) : Except CpuErr (SessState × Bool) :=
  match step_cycle ss with
  | .error e => .error e
  | .ok ((s, it), finished) => .ok (({ s with cycles := s.cycles + 1 }, it), finished)

/-- The `CPU.__init__` constructor: fresh zeroed components, both I/O ports
with their default `"example"` queue (the input queue is a parameter so that
a pre-supplied stream can be modelled), a CU whose initial phase is drawn
from the shared `CYCLE_PHASES` iterator, and a final `PC ← 0` write. -/
def mkCPU (input : List Nat := defaultIOContents) (it : CyclePhase) :
    Except CpuErr SessState :=
  let s₀ : CpuState :=
    { ioIn := { contents := input }, ioOut := { contents := defaultIOContents },
      current_phase := it }
  match enter_phase s₀ it with
  | .error e => .error e
  | .ok s₁ => .ok ({ s₁ with pc := wordMask 0 }, it.next)

/-- One iteration of the `CPU.load_program` loop: point the RAM address at
the next slot and store the masked word there. -/
def load_program_store (s : CpuState) (aw : Nat × Nat) : CpuState :=
  let s := { s with ramAddress := aw.1 }
  { s with ram := ramWrite s.ram { address := s.ramAddress } (aw.2 &&& 0xFFFF) }

/-- The `CPU.load_program` method: write each word (masked) at successive
addresses through the RAM address/data pair, then reset PC to 0. -/
def load_program (s : CpuState) (program : List Nat) : CpuState :=
  { program.enum.foldl load_program_store { s with ramAddress := 0 }
      with pc := wordMask 0 }

/-- Construct a CPU at the given iterator state, load a program, and return
the ready-to-run session state. -/
def mkRun (prog : List Nat) (input : List Nat) (it : CyclePhase) :
    Except CpuErr SessState :=
  match mkCPU input it with
  | .error e => .error e
  | .ok (s, it') => .ok (load_program s prog, it')

/-- Iterate `CPU.step` `n` times, returning the final session state and the
halt flag reported by the last step (`false` before any step). -/
def stepsN (ss : SessState) : Nat → Except CpuErr (SessState × Bool)
  | 0 => .ok (ss, false)
  | n + 1 =>
    match stepsN ss n with
    | .error e => .error e
    | .ok (ss', _) => CPU_step ss'

/-! ## Python string helpers used by the assembler -/

/-- Whitespace characters stripped by Python's `str.strip()` / `str.split()`
(ASCII subset; the sources only feed ASCII). -/
def pyIsSpace (c : Char) : Bool :=
  c = ' ' || c = '\t' || c = '\n' || c = '\x0d' || c = '\x0b' || c = '\x0c'

/-- Python `s.strip()`. -/
def pyStrip (s : String) : String :=
  String.mk (((s.toList.dropWhile pyIsSpace).reverse.dropWhile pyIsSpace).reverse)

/-- Token accumulator for `pySplitWs`: walk the characters, flushing the
pending token at each whitespace run. -/
def wsTokensAux : List Char → List Char → List String
  | acc, [] => if acc = [] then [] else [String.mk acc.reverse]
  | acc, c :: cs =>
    if pyIsSpace c then
      if acc = [] then wsTokensAux [] cs
      else String.mk acc.reverse :: wsTokensAux [] cs
    else wsTokensAux (c :: acc) cs

/-- Python `s.split()` (split on whitespace runs, discarding empties). -/
def pySplitWs (s : String) : List String :=
  wsTokensAux [] s.toList

/-- Whether a string starts with the given character (Python
`s.startswith(c)` for a one-character prefix). -/
def startsWithChar (s : String) (c : Char) : Bool :=
  match s.toList with
  | [] => false
  | x :: _ => x = c

/-- Python `s[1:]`. -/
def pyDrop1 (s : String) : String :=
  String.mk (s.toList.drop 1)

/-- Python `s.split(sep, 1)[0]` and `[1]` for a one-character separator: the
text before the first occurrence and the text after it (the whole string and
`""` when the separator is absent; the source only uses index `[0]` in that
case). -/
def pySplitOnce (sep : Char) (s : String) : String × String :=
  let (before, rest) := s.toList.span (fun c => c ≠ sep)
  match rest with
  | [] => (String.mk before, "")
  | _ :: after => (String.mk before, String.mk after)

/-- Python `s.upper()` (ASCII). -/
def pyUpper (s : String) : String :=
  String.mk (s.toList.map Char.toUpper)

/-- Python truthiness of an optional string (`None` and `""` are falsy). -/
def pyTruthyStr : Option String → Bool
  | none => false
  | some s => s ≠ ""

/-- Python `a or b` on optional strings. -/
def pyOrStr (a b : Option String) : Option String :=
  if pyTruthyStr a then a else b

/-- Python `max(0, x)` on an int, as a natural number. -/
def pyMax0 (x : Int) : Nat := x.toNat

/-- Value of one digit character for `int(s, base)` (letters serve bases above
ten, in either case). -/
def digitVal (c : Char) : Option Nat :=
  if '0' ≤ c ∧ c ≤ '9' then some (c.toNat - '0'.toNat)
  else if 'a' ≤ c ∧ c ≤ 'z' then some (c.toNat - 'a'.toNat + 10)
  else if 'A' ≤ c ∧ c ≤ 'Z' then some (c.toNat - 'A'.toNat + 10)
  else none

/-- Digits of `int(s, base)`: every character must be a digit below the base
and at least one digit must be present. -/
def pyIntDigits (base : Nat) : List Char → Option Nat
  | [] => none
  | cs => cs.foldl
      (fun acc c => do
        let a ← acc
        let d ← digitVal c
        if d < base then some (a * base + d) else none)
      (some 0)

/-- Python `int(s, base)`: optional surrounding whitespace and sign, then
digits (digit-group underscores are not modelled; no input here uses them).
`none` models the `ValueError` raised on malformed text. -/
def pyInt (base : Nat) (s : String) : Option Int :=
  let cs := (pyStrip s).toList
  match cs with
  | '+' :: rest => (pyIntDigits base rest).map Int.ofNat
  | '-' :: rest => (pyIntDigits base rest).map (fun n => -(n : Int))
  | rest => (pyIntDigits base rest).map Int.ofNat

/-- Python dict used as a label table: insertion-ordered association list;
assignment updates in place or appends. -/
def dictSet (d : List (String × Nat)) (k : String) (v : Nat) : List (String × Nat) :=
  if (d.find? (fun p => p.1 = k)).isSome then
    d.map (fun p => if p.1 = k then (k, v) else p)
  else d ++ [(k, v)]

/-- Dict lookup. -/
def dictGet (d : List (String × Nat)) (k : String) : Option Nat :=
  (d.find? (fun p => p.1 = k)).map Prod.snd

/-- Dict membership (`k in d`). -/
def dictContains (d : List (String × Nat)) (k : String) : Bool :=
  (d.find? (fun p => p.1 = k)).isSome

/-! ## Two-pass assembler (`assembler/assembler.py`) -/

/-- One RAM write emitted during pass 2 (`RamWrite`). -/
structure RamWrite where
  address : Nat
  value : Nat
  deriving DecidableEq, Repr

/-- Intermediate state produced while scanning a single source line
(`ParsingResult`).  The address fields default to `-1` in the source but are
always passed explicitly at the single construction site, so they are kept as
naturals here. -/
structure ParsingResult where
  instruction_address : Nat := 0
  variable_address : Nat := 0
  mnemonic : Option String := none
  operand_token : Option String := none
  new_instruction_label : Option String := none
  new_variable_label : Option String := none
  next_address : Nat := 0
  next_variable_address : Nat := 0
  deriving DecidableEq, Repr

/-- Assembler phases (`AssemblerStepper.PHASE_*`). -/
inductive Phase where
  | TRIM | PASS1_SCAN | PASS1_FINALISE
  | PASS2_EMIT_INSTRUCTIONS | PASS2_EMIT_VARIABLES
  | DONE | ERROR
  deriving DecidableEq, Repr

/-- A view of the assembler state for a UI refresh (`AssemblerSnapshot`). -/
structure AssemblerSnapshot where
  phase : Phase
  pass_number : Nat
  current_line_index : Nat
  current_line_text : Option String
  cursor_row : Option Nat
  instruction_address : Nat
  variable_address : Nat
  instruction_labels : List (String × Nat)
  variable_labels : List (String × Nat)
  highlight_instruction_label : Option String
  highlight_variable_label : Option String
  emitted_words : List Nat
  ram_writes : List RamWrite
  editor_text : Option String := none
  message : Option String := none
  deriving DecidableEq, Repr

/-- Full state of an `AssemblerStepper`. -/
structure AsmState where
  raw_lines : List String
  trimmed_lines : List String := []
  trim_index : Nat := 0
  phase : Phase := .TRIM
  instruction_address : Nat := 0
  variable_address : Nat := 0
  parsing_results : List ParsingResult := []
  instruction_labels : List (String × Nat) := []
  variable_labels_relative : List (String × Nat) := []
  variable_labels_final : List (String × Nat) := []
  pass1_index : Nat := 0
  instructions_end_address : Nat := 0
  pass2_instruction_results : List ParsingResult := []
  pass2_variable_results : List ParsingResult := []
  pass2_index : Nat := 0
  emitted_words : List Nat := []
  error_message : Option String := none
  deriving DecidableEq, Repr

/-- The `AssemblerStepper.__init__` constructor. -/
def mkStepper (source_lines : List String) : AsmState :=
  { raw_lines := source_lines }

/-- Exceptions inside the assembler: `AssemblingError` (caught by `step`) or
an uncaught Python exception such as the `ValueError` from `int()`. -/
inductive AsmExc where
  | assembling (msg : String)
  | pyValueError
  deriving DecidableEq, Repr

/-- The `AssemblerStepper._snapshot` helper. -/
def snapshotOf (s : AsmState) (current_line_text : Option String)
    (ram_writes : List RamWrite) (cursor_row : Option Nat := none)
    (editor_text : Option String := none)
    (highlight_instruction_label : Option String := none)
    (highlight_variable_label : Option String := none)
    (message : Option String := none) : AssemblerSnapshot :=
  let (current_index, pass_number) :=
    if s.phase = .TRIM then (s.trim_index, 0)
    else if s.phase = .PASS1_SCAN ∨ s.phase = .PASS1_FINALISE then (s.pass1_index, 1)
    else (s.pass2_index, 2)
  { phase := s.phase,
    pass_number := pass_number,
    current_line_index := current_index,
    current_line_text := current_line_text,
    cursor_row := cursor_row,
    instruction_address := s.instruction_address,
    variable_address := s.variable_address,
    instruction_labels := s.instruction_labels,
    variable_labels :=
      if s.variable_labels_final ≠ [] then s.variable_labels_final
      else s.variable_labels_relative,
    highlight_instruction_label := highlight_instruction_label,
    highlight_variable_label := highlight_variable_label,
    emitted_words := s.emitted_words,
    ram_writes := ram_writes,
    editor_text := editor_text,
    message := pyOrStr message s.error_message }

/-- The `_parse_line` helper: translate one trimmed source line into a
parsing record, raising `AssemblingError` on invalid shapes or unknown
mnemonics. -/
def parse_line (line : String) (instruction_address variable_address : Nat) :
    Except AsmExc ParsingResult :=
  let result : ParsingResult :=
    { instruction_address := instruction_address, variable_address := variable_address }
  if line.toList.contains ':' then
    let (labelRaw, restRaw) := pySplitOnce ':' line
    let label := pyUpper (pyStrip labelRaw)
    let rest_of_line := pyStrip restRaw
    let toks := pySplitWs rest_of_line
    if rest_of_line = "" ∨ (toks.length ≠ 1 ∧ toks.length ≠ 2) then
      .error (.assembling
        ("In " ++ line ++ ": Label " ++ sq label ++
         " must be followed by an instruction or immediate value.\ncorrect formats:\n- <LABEL>: <MNEMONIC> <OPERAND>\n- <LABEL>: <IMMEDIATE VALUE>"))
    else if toks.length = 2 then
      let mnemonic := toks.getD 0 ""
      let operand := toks.getD 1 ""
      let result := { result with new_instruction_label := some label,
                                  mnemonic := some mnemonic,
                                  operand_token := some operand,
                                  instruction_address := instruction_address }
      match get_instruction_by_mnemonic mnemonic with
      | [] => .error (.assembling ("Unknown instruction mnemonic " ++ sq mnemonic ++ "."))
      | d :: _ =>
        .ok { result with next_address :=
                instruction_address + (if d.long_operand then 2 else 1) }
    else if rest_of_line = "IN" ∨ rest_of_line = "OUT" ∨ rest_of_line = "END" then
      .ok { result with new_instruction_label := some label,
                        mnemonic := some rest_of_line,
                        instruction_address := instruction_address,
                        next_address := instruction_address + 1 }
    else
      let result := { result with new_variable_label := some label,
                                  operand_token := some rest_of_line }
      if !(startsWithChar rest_of_line '#' || startsWithChar rest_of_line 'B' ||
           startsWithChar rest_of_line '&') then
        .error (.assembling
          ("Invalid immediate value " ++ sq rest_of_line ++
           ". Immediate values must start with " ++ sq "#" ++ ", " ++ sq "B" ++
           ", or " ++ sq "&" ++ "."))
      else
        .ok { result with variable_address := variable_address,
                          next_variable_address := variable_address + 1 }
  else
    match pySplitWs line with
    | [m] =>
      let result := { result with mnemonic := some m }
      match get_instruction_by_mnemonic m with
      | [] => .error (.assembling ("Unknown instruction mnemonic " ++ sq m ++ "."))
      | _ :: _ => .ok { result with next_address := instruction_address + 1 }
    | [m, op] =>
      let result := { result with mnemonic := some m, operand_token := some op }
      match get_instruction_by_mnemonic m with
      | [] => .error (.assembling ("Unknown instruction mnemonic " ++ sq m ++ "."))
      | d :: _ =>
        .ok { result with next_address :=
                instruction_address + (if d.long_operand then 2 else 1) }
    | _ => .error (.assembling ("Invalid line format: " ++ sq line ++ "."))
where
  /-- Wrap a string in the single quotes Python's f-strings print. -/
  sq (t : String) : String := "\x27" ++ t ++ "\x27"

/-- Wrap a string in single quotes, as Python f-string messages do. -/
def quoted (t : String) : String := "\x27" ++ t ++ "\x27"

/-- Register names accepted as operands, with their indices
(`RegisterIndex[ComponentName(token)]`). -/
def registerIndexByName : List (String × Nat) :=
  [("ACC", 0), ("IX", 1), ("PC", 2), ("MAR", 3), ("MDR", 4), ("CIR", 5)]

/-- The `_operand_to_int` helper: resolve an operand token to a 16-bit value
together with the label looked at, raising on unknown tokens or out-of-range
values. -/
def operand_to_int (operand_token : Option String)
    (instruction_labels variable_labels : List (String × Nat)) :
    Except AsmExc (Int × Option String × Option String) := do
  match operand_token with
  | none => .error (.assembling "Operand is missing.")
  | some tok =>
    let (value, li, lv) ←
      if startsWithChar tok '#' then do
        let v ← (pyInt 10 (pyDrop1 tok)).elim (Except.error .pyValueError) pure
        pure (v, (none : Option String), (none : Option String))
      else if startsWithChar tok 'B' then do
        let v ← (pyInt 2 (pyDrop1 tok)).elim (Except.error .pyValueError) pure
        pure (v, none, none)
      else if startsWithChar tok '&' then do
        let v ← (pyInt 16 (pyDrop1 tok)).elim (Except.error .pyValueError) pure
        pure (v, none, none)
      else if dictContains instruction_labels tok then
        pure (((dictGet instruction_labels tok).getD 0 : Int), some tok, none)
      else if dictContains variable_labels tok then
        pure (((dictGet variable_labels tok).getD 0 : Int), none, some tok)
      else if dictContains registerIndexByName tok then
        pure (((dictGet registerIndexByName tok).getD 0 : Int), none, none)
      else
        .error (.assembling ("Unknown operand or label " ++ quoted tok ++ "."))
    if !(0 ≤ value ∧ value ≤ 0xFFFF) then
      .error (.assembling
        ("Operand value " ++ quoted (toString value) ++ " out of range (0 to 65535)."))
    else
      pure (value, li, lv)

/-- The `_create_instruction_from_parsing_result` helper: emit the machine
word(s) of a parsing record, plus the labels looked at. -/
def create_instruction_from_parsing_result (parsing_result : ParsingResult)
    (instruction_labels variable_labels : List (String × Nat)) :
    Except AsmExc (List Nat × Option String × Option String) := do
  match parsing_result.new_variable_label with
  | some lv =>
    match parsing_result.operand_token with
    | none => .error (.assembling "Variable definition missing value.")
    | some tok => do
      let value ←
        if startsWithChar tok '#' then
          (pyInt 10 (pyDrop1 tok)).elim (Except.error AsmExc.pyValueError) pure
        else if startsWithChar tok 'B' then
          (pyInt 2 (pyDrop1 tok)).elim (Except.error AsmExc.pyValueError) pure
        else if startsWithChar tok '&' then
          (pyInt 16 (pyDrop1 tok)).elim (Except.error AsmExc.pyValueError) pure
        else
          .error (.assembling
            ("Invalid immediate value " ++ quoted tok ++
             ". Immediate values must start with " ++ quoted "#" ++ ", " ++
             quoted "B" ++ ", or " ++ quoted "&" ++ "."))
      if !(0 ≤ value ∧ value ≤ 0xFFFF) then
        .error (.assembling
          ("Immediate value " ++ quoted (toString value) ++ " out of range (0 to 65535)."))
      else
        pure ([intMask value], none, some lv)
  | none =>
    match parsing_result.mnemonic with
    | none => .error (.assembling "Instruction mnemonic is missing.")
    | some mnemonic =>
      match get_instruction_by_mnemonic mnemonic with
      | [] => .error (.assembling ("Unknown instruction mnemonic " ++ quoted mnemonic ++ "."))
      | d₀ :: rest => do
        let instruction_def ←
          if rest = [] then pure d₀
          else match parsing_result.operand_token with
            | none => .error (.assembling
                ("Ambiguous instruction " ++ quoted mnemonic ++ " requires an operand."))
            | some tok =>
              if startsWithChar tok '#' || startsWithChar tok 'B' || startsWithChar tok '&' then
                pure (((d₀ :: rest).find?
                  (fun d => d.addressing_mode = AddressingMode.IMMEDIATE)).getD d₀)
              else
                pure (((d₀ :: rest).find?
                  (fun d => d.addressing_mode ≠ AddressingMode.IMMEDIATE)).getD d₀)
        let instruction_word := instruction_def.opcode <<< 8
        if instruction_def.addressing_mode = AddressingMode.NONE then
          pure ([wordMask instruction_word], none, none)
        else do
          let (operand, li, lv) ←
            operand_to_int parsing_result.operand_token instruction_labels variable_labels
          if !instruction_def.long_operand then
            pure ([intMask ((instruction_word : Int) + operand)], li, lv)
          else
            pure ([wordMask instruction_word, intMask operand], li, lv)

/-- The END check loop of `_step_pass1_finalise`: walk the parsing records
backwards and decide from the first one that carries a mnemonic. -/
def endCheckLoop : List ParsingResult → Bool
  | [] => false
  | r :: rest =>
    match r.mnemonic with
    | some m => m = "END"
    | none => endCheckLoop rest

/-- Whether `_step_pass1_finalise` finds an END instruction. -/
def endCheck (rs : List ParsingResult) : Bool := endCheckLoop rs.reverse

/-- The `_step_trim` handler. -/
def step_trim (s : AsmState) : Except AsmExc (AsmState × AssemblerSnapshot) :=
  if s.raw_lines.length ≤ s.trim_index then
    let s := { s with phase := .PASS1_SCAN }
    let editor_text := String.intercalate "\n" s.trimmed_lines
    .ok (s, snapshotOf s none [] none (some editor_text) none none (some "Trim complete."))
  else
    let raw_line := s.raw_lines.getD s.trim_index ""
    let trimmed := pyStrip (pySplitOnce ';' raw_line).1
    let (s, cursor_row) :=
      if trimmed ≠ "" then
        let s := { s with trimmed_lines := s.trimmed_lines ++ [trimmed] }
        (s, pyMax0 ((s.trimmed_lines.length : Int) - 1))
      else (s, s.trimmed_lines.length)
    let s := { s with trim_index := s.trim_index + 1 }
    let editor_text :=
      String.intercalate "\n" (s.trimmed_lines ++ s.raw_lines.drop s.trim_index)
    .ok (s, snapshotOf s (some raw_line) [] (some cursor_row) (some editor_text)
          none none (some "Trimming source..."))

/-- The `_step_pass1_scan` handler. -/
def step_pass1_scan (s : AsmState) : Except AsmExc (AsmState × AssemblerSnapshot) :=
  if s.trimmed_lines.length ≤ s.pass1_index then
    let s := { s with phase := .PASS1_FINALISE }
    .ok (s, snapshotOf s none [] none none none none (some "Pass 1 complete."))
  else do
    let line := s.trimmed_lines.getD s.pass1_index ""
    let parsing_result ← parse_line line s.instruction_address s.variable_address
    let s := { s with parsing_results := s.parsing_results ++ [parsing_result] }
    let highlight_instruction_label :=
      if pyTruthyStr parsing_result.new_instruction_label then
        parsing_result.new_instruction_label
      else none
    let s :=
      if pyTruthyStr parsing_result.new_instruction_label then
        { s with instruction_labels :=
            (dictSet s.instruction_labels (parsing_result.new_instruction_label.getD "")
              s.instruction_address) }
      else s
    let highlight_variable_label :=
      if pyTruthyStr parsing_result.new_variable_label then
        parsing_result.new_variable_label
      else none
    let s :=
      if pyTruthyStr parsing_result.new_variable_label then
        { s with variable_labels_relative :=
            (dictSet s.variable_labels_relative (parsing_result.new_variable_label.getD "")
              s.variable_address) }
      else s
    let s := { s with instruction_address := parsing_result.next_address,
                      variable_address := parsing_result.next_variable_address,
                      pass1_index := s.pass1_index + 1 }
    .ok (s, snapshotOf s (some line) [] (some (pyMax0 ((s.pass1_index : Int) - 1)))
          none highlight_instruction_label highlight_variable_label
          (some "Pass 1: scanning..."))

/-- The `_step_pass1_finalise` handler: END verification, conversion of the
relative variable slots through the current instruction address, and the
split of the records for pass 2. -/
def step_pass1_finalise (s : AsmState) : Except AsmExc (AsmState × AssemblerSnapshot) := do
  if !endCheck s.parsing_results then
    .error (.assembling "Program must include END instruction.")
  else
    let s := { s with
      instructions_end_address := s.instruction_address,
      variable_labels_final :=
        s.variable_labels_relative.map
          (fun (p : String × Nat) => (p.1, s.instruction_address + p.2)),
      pass2_instruction_results :=
        s.parsing_results.filter (fun r => r.new_variable_label.isNone),
      pass2_variable_results :=
        s.parsing_results.filter (fun r => r.new_variable_label.isSome),
      pass2_index := 0,
      emitted_words := [] }
    let s := { s with phase := .PASS2_EMIT_INSTRUCTIONS }
    .ok (s, snapshotOf s none [] (some (pyMax0 ((s.pass1_index : Int) - 1)))
          none none none (some "Pass 1 finalised. Starting pass 2..."))

/-- The `_step_pass2_emit_instructions` handler. -/
def step_pass2_emit_instructions (s : AsmState) :
    Except AsmExc (AsmState × AssemblerSnapshot) := do
  let instruction_offset : Nat := s.pass2_variable_results.length
  if s.pass2_instruction_results.length ≤ s.pass2_index then
    let s := { s with phase := .PASS2_EMIT_VARIABLES, pass2_index := 0 }
    .ok (s, snapshotOf s none []
          (some (pyMax0 ((s.pass2_index : Int) - 1 + instruction_offset)))
          none none none (some "Instructions emitted. Emitting variables..."))
  else do
    let parsing_result := s.pass2_instruction_results.getD s.pass2_index {}
    let (words, looked_at_instruction, looked_at_variable) ←
      create_instruction_from_parsing_result parsing_result
        s.instruction_labels s.variable_labels_final
    let base_address := parsing_result.instruction_address
    let ram_writes := words.enum.map
      (fun ow => RamWrite.mk (base_address + ow.1) (wordMask ow.2))
    let s := { s with emitted_words := s.emitted_words ++ words.map wordMask }
    let s := { s with pass2_index := s.pass2_index + 1 }
    .ok (s, snapshotOf s parsing_result.mnemonic ram_writes
          (some (pyMax0 ((s.pass2_index : Int) - 1 + instruction_offset)))
          none looked_at_instruction looked_at_variable
          (some "Pass 2: emitting instructions..."))

/-- The `_step_pass2_emit_variables` handler. -/
def step_pass2_emit_variables (s : AsmState) :
    Except AsmExc (AsmState × AssemblerSnapshot) := do
  if s.pass2_variable_results.length ≤ s.pass2_index then
    let s := { s with phase := .DONE }
    .ok (s, snapshotOf s none [] (some (pyMax0 ((s.pass2_index : Int) - 1)))
          none none none (some "Assembling complete."))
  else do
    let parsing_result := s.pass2_variable_results.getD s.pass2_index {}
    let (words, _, _) ←
      create_instruction_from_parsing_result parsing_result
        s.instruction_labels s.variable_labels_final
    match words with
    | [] => .error .pyValueError
    | w :: _ =>
      let address := s.instructions_end_address + parsing_result.variable_address
      let value := wordMask w
      let ram_writes := [RamWrite.mk address value]
      let s := { s with emitted_words := s.emitted_words ++ [value] }
      let s := { s with pass2_index := s.pass2_index + 1 }
      .ok (s, snapshotOf s parsing_result.new_variable_label ram_writes
            (some (pyMax0 ((s.pass2_index : Int) - 1)))
            none none parsing_result.new_variable_label
            (some "Pass 2: emitting variables..."))

/-- The `AssemblerStepper.step` method: idempotent in DONE/ERROR, otherwise
dispatch to the phase handler, catching `AssemblingError` into the ERROR
phase.  An `Except.error` result models an uncaught Python exception. -/
def asmStep (s : AsmState) : Except String (AsmState × AssemblerSnapshot) :=
  if s.phase = .DONE ∨ s.phase = .ERROR then
    .ok (s, snapshotOf s none [])
  else
    let r :=
      match s.phase with
      | .TRIM => step_trim s
      | .PASS1_SCAN => step_pass1_scan s
      | .PASS1_FINALISE => step_pass1_finalise s
      | .PASS2_EMIT_INSTRUCTIONS => step_pass2_emit_instructions s
      | .PASS2_EMIT_VARIABLES => step_pass2_emit_variables s
      | _ => step_trim s
    match r with
    | .ok p => .ok p
    | .error (.assembling msg) =>
      let s := { s with phase := .ERROR, error_message := some msg }
      .ok (s, snapshotOf s none [] none none none none (some msg))
    | .error .pyValueError => .error "ValueError"

/-- Iterate `asmStep` `n` times, returning the final state and the snapshot
of the last step. -/
def asmStepsN (s : AsmState) : Nat → Except String (AsmState × Option AssemblerSnapshot)
  | 0 => .ok (s, none)
  | n + 1 => do
    let (s', _) ← asmStepsN s n
    let (s'', snap) ← asmStep s'
    .ok (s'', some snap)

/-- The loop body of `run_to_completion`, with the remaining iteration count
as fuel. -/
def runToCompletionAux (s : AsmState) : Nat → Except String (List Nat)
  | 0 => .error "Assembler did not finish within the step limit."
  | fuel + 1 => do
    let (s', snapshot) ← asmStep s
    if snapshot.phase = .ERROR then
      .error ((pyOrStr snapshot.message (some "Assembling failed.")).getD "Assembling failed.")
    else if snapshot.phase = .DONE then
      .ok snapshot.emitted_words
    else
      runToCompletionAux s' fuel

/-- The `run_to_completion` method with its default `max_steps`. -/
def run_to_completion (s : AsmState) (max_steps : Nat := 1000000) :
    Except String (List Nat) :=
  runToCompletionAux s max_steps

/-- RAM writes reported by the first `n` snapshots of a stepper run, in
order (each snapshot carries the writes of its own step only). -/
def asmRamWrites (s : AsmState) : Nat → Except String (List RamWrite)
  | 0 => .ok []
  | n + 1 => do
    let ws ← asmRamWrites s n
    let (s', _) ← asmStepsN s n
    let (_, snap) ← asmStep s'
    .ok (ws ++ snap.ram_writes)

/-- Build a CPU at the fresh-interpreter iterator state, load `prog`, and run
`n` steps. -/
def runProg (prog : List Nat) (input : List Nat) (n : Nat) :
    Except CpuErr (SessState × Bool) :=
  match mkRun prog input sessionStart with
  | .error e => .error e
  | .ok ss => stepsN ss n

/-! ## Observations and session bookkeeping for the determinism claim -/

/-- The observable machine state a trace records: the six registers, the
comparison flag, the whole memory, and both I/O queues. -/
structure Obs where
  mar : Nat
  mdr : Nat
  pc : Nat
  cir : Nat
  acc : Nat
  ix : Nat
  flagVal : Nat
  ram : Nat → Option Nat
  ioIn : List Nat
  ioOut : List Nat

/-- Project a CPU state to its observable part. -/
def CpuState.obs (s : CpuState) : Obs :=
  { mar := s.mar, mdr := s.mdr, pc := s.pc, cir := s.cir, acc := s.acc, ix := s.ix,
    flagVal := s.alu.flagVal, ram := s.ram,
    ioIn := s.ioIn.contents, ioOut := s.ioOut.contents }

/-- Whether stepping `n` times from a constructed session halts (the last
step reported `True`); `false` when construction or a step raised. -/
def haltedAfter (r : Except CpuErr SessState) (n : Nat) : Bool :=
  match r with
  | .error _ => false
  | .ok ss =>
    match stepsN ss n with
    | .ok (_, b) => b
    | .error _ => false

/-- The `CYCLE_PHASES` iterator state after `n` steps of a constructed
session (defaulting to the fresh-interpreter state when the run raised). -/
def iterAfterRun (r : Except CpuErr SessState) (n : Nat) : CyclePhase :=
  match r with
  | .error _ => sessionStart
  | .ok ss =>
    match stepsN ss n with
    | .ok ((_, it), _) => it
    | .error _ => sessionStart

/-- The observable state after `m` steps of a constructed session. -/
def traceObs (r : Except CpuErr SessState) (m : Nat) : Except CpuErr Obs :=
  match r with
  | .error e => .error e
  | .ok ss =>
    match stepsN ss m with
    | .error e => .error e
    | .ok p => .ok p.1.1.obs

/-- The invariant tying a running CPU to the shared phase iterator: the
iterator is one draw ahead of the CPU's current phase, and the RTN sequence
is empty only in the EXECUTE phase. -/
def SessInv (ss : SessState) : Prop :=
  ss.2 = ss.1.current_phase.next ∧
  (ss.1.RTN_sequence = [] → ss.1.current_phase = CyclePhase.EXECUTE)

/-- Stepper state of the program `["END", "LDM #5"]` after six steps: the
trim phase and pass 1 are complete and the stepper sits in PASS1_FINALISE. -/
def c4state : AsmState :=
  (((asmStepsN (mkStepper ["END", "LDM #5"]) 6).toOption).map Prod.fst).getD (mkStepper [])

/-- Stepper state of the program `["LDM #5", "OUT", "END"]` after fourteen
steps: assembling is complete and the stepper sits in DONE. -/
def c9state : AsmState :=
  (((asmStepsN (mkStepper ["LDM #5", "OUT", "END"]) 14).toOption).map Prod.fst).getD (mkStepper [])

/-- The state a successful PASS1_FINALISE step produces (phase moved to
PASS2_EMIT_INSTRUCTIONS, variable addresses finalised, records split). -/
def finaliseOkState (s : AsmState) : AsmState :=
  { s with
    instructions_end_address := s.instruction_address,
    variable_labels_final :=
      s.variable_labels_relative.map
        (fun (p : String × Nat) => (p.1, s.instruction_address + p.2)),
    pass2_instruction_results :=
      s.parsing_results.filter (fun r => r.new_variable_label.isNone),
    pass2_variable_results :=
      s.parsing_results.filter (fun r => r.new_variable_label.isSome),
    pass2_index := 0,
    emitted_words := [],
    phase := .PASS2_EMIT_INSTRUCTIONS }

/-- The state `step` produces when a phase handler raises an
`AssemblingError` with the given message. -/
def asmErrorState (s : AsmState) (msg : String) : AsmState :=
  { s with phase := .ERROR, error_message := some msg }

/-- The CPU state a fresh construction at iterator state FETCH produces
(zeroed components, default output queue, the FETCH sequence installed). -/
def mkCpuFetchState (input : List Nat) : CpuState :=
  { ioIn := { contents := input }, ioOut := { contents := defaultIOContents },
    current_phase := .FETCH, RTN_sequence := FETCH_RTNSteps, RTN_sequence_index := 0 }

/-! ## Theorems -/

/-- C6 counterexample: `RAMAddress.write` does not mask its argument to 16
bits; writing `0x10000` stores `0x10000` itself, which is not the masked
value `0` and lies outside `[0, 65535]`. -/
theorem c6_counterexample :
    (RAMAddress.write { address := 0 } 0x10000).address = 0x10000
    ∧ (RAMAddress.write { address := 0 } 0x10000).address ≠ wordMask 0x10000
    ∧ ¬ (RAMAddress.write { address := 0 } 0x10000).address ≤ 65535 := by
  refine ⟨rfl, by decide, by decide⟩

/-- C6 amended: `RAMAddress.write(a)` stores `a` unmasked (so the stored
address lies in `[0, 65535]` only when `a` does), and subsequent `RAM.read` /
`RAM.write` act on the cell at exactly that stored address. -/
theorem c6_amended (r : RAMAddress) (a : Nat) (m : Nat → Option Nat) (d x : Nat) :
    (RAMAddress.write r a).address = a
    ∧ ramRead m (RAMAddress.write r a) = m a
    ∧ ramWrite m (RAMAddress.write r a) d x
        = (if x = a then some (wordMask d) else m x) := by
  exact ⟨rfl, rfl, rfl⟩

/-- C8: ALU arithmetic wraps modulo `2^16`: with control ADD the stored
result is `(a + b) % 65536`, and with control SUB it is the Python
(nonnegative) remainder `((a - b) mod 65536)`, for all 16-bit operands. -/
theorem c8_alu_wraparound (alu : ALU) (a b : Nat) (_ha : a < 2 ^ 16) (_hb : b < 2 ^ 16) :
    (((alu.set_mode (some .ADD)).set_operands a b).compute).map ALU.result
        = .ok ((a + b) % 65536)
    ∧ (((alu.set_mode (some .SUB)).set_operands a b).compute).map ALU.result
        = .ok ((((a : Int) - (b : Int)) % 65536).toNat) := by
  exact ⟨rfl, rfl⟩

/-- C8 witness: `ADD 0xFFFF + 1 = 0` and `SUB 0 - 1 = 0xFFFF`. -/
theorem c8_alu_wraparound_witness :
    (0xFFFF : Nat) < 2 ^ 16 ∧ (1 : Nat) < 2 ^ 16
    ∧ ((((({} : ALU).set_mode (some .ADD)).set_operands 0xFFFF 1).compute).map ALU.result
        = .ok 0)
    ∧ ((((({} : ALU).set_mode (some .SUB)).set_operands 0 1).compute).map ALU.result
        = .ok 0xFFFF) := by
  refine ⟨by decide, by decide, ?_, ?_⟩
  · exact ((c8_alu_wraparound {} 0xFFFF 1 (by decide) (by decide)).1).trans
      (congrArg Except.ok (by decide))
  · exact ((c8_alu_wraparound {} 0 1 (by decide) (by decide)).2).trans
      (congrArg Except.ok (by decide))

/-- C2: the ALU has no case for the LSL/LSR control signals, so `compute`
raises `AbnormalComponentUseError` instead of shifting; consequently a
program executing LSL (opcode 28) or LSR (opcode 29) faults at the ALU step
of its RTN sequence, with ACC still unchanged just before the fault. -/
theorem c2_lsl_lsr_fault :
    (({ control := some .LSL, acc := 5, operand := 1 } : ALU).compute
        = .error (.abnormalComponentUse
            "ALU compute() called with invalid or unset control signal: lsl"))
    ∧ (({ control := some .LSR, acc := 5, operand := 1 } : ALU).compute
        = .error (.abnormalComponentUse
            "ALU compute() called with invalid or unset control signal: lsr"))
    ∧ runProg [0x1C01, 0x1500] defaultIOContents 7
        = .error (.abnormalComponentUse
            "ALU compute() called with invalid or unset control signal: lsl")
    ∧ runProg [0x1D02, 0x1500] defaultIOContents 7
        = .error (.abnormalComponentUse
            "ALU compute() called with invalid or unset control signal: lsr")
    ∧ ((runProg [0x1C01, 0x1500] defaultIOContents 6).toOption.map
          (fun p => p.1.1.acc)) = some 0 := by
  exact ⟨rfl, rfl, rfl, rfl, rfl⟩

/-- C5: executing IN with an empty input queue does not suspend awaiting a
byte: `IO.read` returns `None` and the transfer handler's `Register.write`
faults on `None % 65536` with a `TypeError` that propagates out of `step`;
ACC is left at its pre-read value only because the exception precedes the
assignment (shown on a full run: step 7 faults and ACC still holds 0 after
step 6). -/
theorem c5_in_empty_queue_fault :
    (∀ s : CpuState,
        handleSimpleTransfer { s with ioIn := { contents := [] } } .IN .ACC
          = .error CpuErr.typeError)
    ∧ runProg [0x1300, 0x1500] [] 7 = .error CpuErr.typeError
    ∧ ((runProg [0x1300, 0x1500] [] 6).toOption.map (fun p => p.1.1.acc)) = some 0 := by
  exact ⟨fun s => rfl, rfl, rfl⟩

/-- C10: both I/O ports of a fresh CPU hold the seven bytes of `"example"`;
reading the input port therefore dequeues 101 (`ord 'e'`) into ACC on the
first IN of a program, never awaiting input, and OUT appends the low byte of
ACC after the pre-existing queue text. -/
theorem c10_default_io_contents :
    ((mkCPU defaultIOContents sessionStart).toOption.map
        (fun ss => (ss.1.ioIn.contents, ss.1.ioOut.contents)))
      = some (strOrds "example", strOrds "example")
    ∧ defaultIOContents = [101, 120, 97, 109, 112, 108, 101]
    ∧ (∀ s : CpuState,
        handleSimpleTransfer { s with ioIn := { contents := strOrds "example" } } .IN .ACC
          = .ok { s with ioIn := { contents := strOrds "xample" }, acc := wordMask 101 })
    ∧ (∀ s : CpuState,
        handleSimpleTransfer s .ACC .OUT
          = .ok { s with ioOut := { contents := s.ioOut.contents ++ [s.acc] } })
    ∧ ((runProg [0x1300, 0x1500] defaultIOContents 7).toOption.map
          (fun p => (p.1.1.acc, p.1.1.ioIn.contents, p.2)))
        = some (101, strOrds "xample", false)
    ∧ ((runProg [0x1400, 0x1500] defaultIOContents 7).toOption.map
          (fun p => p.1.1.ioOut.contents))
        = some (strOrds "example" ++ [0]) := by
  exact ⟨rfl, rfl, fun s => rfl, fun s => rfl, rfl, rfl⟩

/-- C7: assembling the three-line program `LDM #5 / OUT / END` with
`run_to_completion` succeeds and emits exactly `0000 0005 1400 1500`. -/
theorem c7_minimal_program :
    run_to_completion (mkStepper ["LDM #5", "OUT", "END"])
      = .ok [0x0000, 0x0005, 0x1400, 0x1500] := by
  rfl

/-- C1: on the program `LDD X / OUT / END / X: #42` the variable-definition
line resets the running instruction address to 0 (its parsing record's
`next_address` keeps the dataclass default), so PASS1_FINALISE computes
`N = 0` and binds `X` to absolute address `0` instead of `N + k = 4`; the
variable word `0x2A` is then emitted at address 0, inside the instruction
address range `{0..3}`, so the instruction and variable address sets are not
disjoint and the emitted operand of `LDD X` is 0. -/
theorem c1_variable_addresses_collide :
    (((asmStepsN (mkStepper ["LDD X", "OUT", "END", "X:  #42"]) 11).toOption).map
        (fun p => (p.1.phase, p.1.variable_labels_final, p.1.instructions_end_address)))
      = some (Phase.PASS2_EMIT_INSTRUCTIONS, [("X", 0)], 0)
    ∧ run_to_completion (mkStepper ["LDD X", "OUT", "END", "X:  #42"])
        = .ok [0x0100, 0x0000, 0x1400, 0x1500, 0x002A]
    ∧ asmRamWrites (mkStepper ["LDD X", "OUT", "END", "X:  #42"]) 17
        = .ok [⟨0, 0x0100⟩, ⟨1, 0x0000⟩, ⟨2, 0x1400⟩, ⟨3, 0x1500⟩, ⟨0, 0x002A⟩]
    ∧ (parse_line "X:  #42" 4 0).map ParsingResult.next_address = .ok 0 := by
  exact ⟨rfl, rfl, rfl, rfl⟩

/-- C4 counterexample: the trimmed program `END / LDM #5` contains an END
instruction, yet PASS1_FINALISE rejects it with MissingEnd because only the
last mnemonic-carrying parsing record is inspected. -/
theorem c4_counterexample :
    (((asmStepsN (mkStepper ["END", "LDM #5"]) 7).toOption).map
        (fun p => (p.1.phase, p.1.error_message,
                   p.1.parsing_results.map ParsingResult.mnemonic)))
      = some (Phase.ERROR, some "Program must include END instruction.",
              [some "END", some "LDM"])
    ∧ run_to_completion (mkStepper ["END", "LDM #5"])
        = .error "Program must include END instruction." := by
  exact ⟨rfl, rfl⟩

/-- The END-check loop decides whether the first mnemonic in the list is
END. -/
theorem endCheckLoop_eq (l : List ParsingResult) :
    endCheckLoop l = decide ((l.filterMap ParsingResult.mnemonic).head? = some "END") := by
  induction l with
  | nil => rfl
  | cons r rest ih =>
    cases h : r.mnemonic with
    | some m => simp [endCheckLoop, h, List.filterMap_cons]
    | none => simp [endCheckLoop, h, List.filterMap_cons, ih]

/-- The END check of PASS1_FINALISE succeeds exactly when the last
mnemonic-carrying parsing record carries END. -/
theorem endCheck_iff (rs : List ParsingResult) :
    endCheck rs = true ↔ (rs.filterMap ParsingResult.mnemonic).getLast? = some "END" := by
  unfold endCheck
  rw [endCheckLoop_eq, List.filterMap_reverse, List.head?_reverse]
  simp

/-- C4 amended: for any stepper in PASS1_FINALISE, the step fails with
MissingEnd exactly when the last mnemonic-carrying parsing record is not
END (in particular a program whose END is followed by another instruction is
rejected); otherwise it proceeds to PASS2_EMIT_INSTRUCTIONS. -/
theorem c4_amended (s : AsmState) (h : s.phase = Phase.PASS1_FINALISE) :
    ∃ s' snap, asmStep s = .ok (s', snap)
      ∧ (s'.phase = Phase.ERROR ↔
          (s.parsing_results.filterMap ParsingResult.mnemonic).getLast? ≠ some "END")
      ∧ (s'.phase ≠ Phase.ERROR → s'.phase = Phase.PASS2_EMIT_INSTRUCTIONS)
      ∧ (s'.phase = Phase.ERROR →
          s'.error_message = some "Program must include END instruction.") := by
  have hd : ¬ (s.phase = Phase.DONE ∨ s.phase = Phase.ERROR) := by
    rw [h]; intro hc; rcases hc with hc | hc <;> exact Phase.noConfusion hc
  cases hE : endCheck s.parsing_results with
  | true =>
    have hstep : asmStep s
        = .ok (finaliseOkState s,
            snapshotOf (finaliseOkState s) none []
              (some (pyMax0 ((s.pass1_index : Int) - 1)))
              none none none (some "Pass 1 finalised. Starting pass 2...")) := by
      unfold asmStep
      rw [if_neg hd, h]
      unfold step_pass1_finalise
      rw [hE]
      rfl
    refine ⟨finaliseOkState s, _, hstep, ?_, ?_, ?_⟩
    · constructor
      · intro hc; exact Phase.noConfusion hc
      · intro hc; exact absurd ((endCheck_iff s.parsing_results).mp hE) hc
    · intro _; rfl
    · intro hc; exact Phase.noConfusion hc
  | false =>
    have hstep : asmStep s
        = .ok (asmErrorState s "Program must include END instruction.",
            snapshotOf (asmErrorState s "Program must include END instruction.")
              none [] none none none none
              (some "Program must include END instruction.")) := by
      unfold asmStep
      rw [if_neg hd, h]
      unfold step_pass1_finalise
      rw [hE]
      rfl
    refine ⟨asmErrorState s "Program must include END instruction.", _, hstep, ?_, ?_, ?_⟩
    · constructor
      · intro _ hlast
        rw [← endCheck_iff s.parsing_results] at hlast
        rw [hE] at hlast
        exact Bool.noConfusion hlast
      · intro _; rfl
    · intro hc; exact absurd rfl hc
    · intro _; rfl

/-- C4 amended witness: the stepper of `END / LDM #5` after six steps is in
PASS1_FINALISE and its step enters ERROR, since its last mnemonic is LDM. -/
theorem c4_amended_witness :
    c4state.phase = Phase.PASS1_FINALISE
    ∧ ∃ s' snap, asmStep c4state = .ok (s', snap)
      ∧ (s'.phase = Phase.ERROR ↔
          (c4state.parsing_results.filterMap ParsingResult.mnemonic).getLast? ≠ some "END")
      ∧ (s'.phase ≠ Phase.ERROR → s'.phase = Phase.PASS2_EMIT_INSTRUCTIONS)
      ∧ (s'.phase = Phase.ERROR →
          s'.error_message = some "Program must include END instruction.") :=
  ⟨rfl, c4_amended c4state rfl⟩

/-- C9: calling `step` on a stepper in DONE or ERROR performs no state
mutation and returns the idle snapshot of the unchanged state, so every
further call in that phase returns a snapshot equal to the previous one. -/
theorem c9_done_error_idempotent (s : AsmState)
    (h : s.phase = Phase.DONE ∨ s.phase = Phase.ERROR) :
    asmStep s = .ok (s, snapshotOf s none [])
    ∧ (asmStep s).bind (fun p => asmStep p.1) = asmStep s := by
  have hstep : asmStep s = .ok (s, snapshotOf s none []) := by
    unfold asmStep
    rw [if_pos h]
  refine ⟨hstep, ?_⟩
  rw [hstep]
  exact hstep

/-- C9 witness: the stepper of `LDM #5 / OUT / END` after fourteen steps is
in DONE and stepping it is the identity with the idle snapshot. -/
theorem c9_witness :
    c9state.phase = Phase.DONE
    ∧ asmStep c9state = .ok (c9state, snapshotOf c9state none [])
    ∧ (asmStep c9state).bind (fun p => asmStep p.1) = asmStep c9state :=
  ⟨rfl, (c9_done_error_idempotent c9state (Or.inl rfl)).1,
        (c9_done_error_idempotent c9state (Or.inl rfl)).2⟩

/-- Reading any component leaves the CU's phase and RTN sequence
untouched. -/
theorem readComponent_preserves {s : CpuState} {c : ComponentName}
    {d : Option Nat} {s₁ : CpuState} (h : readComponent s c = .ok (d, s₁)) :
    s₁.current_phase = s.current_phase ∧ s₁.RTN_sequence = s.RTN_sequence := by
  cases c <;>
    first
      | exact Except.noConfusion h
      | (injection h with h1; injection h1 with _ h3; subst h3; exact ⟨rfl, rfl⟩)

/-- Writing a component leaves the CU's phase untouched and either leaves
the RTN sequence unchanged or replaces it (through `CU.write` on a
long-operand instruction) with the long-operand fetch. -/
theorem writeComponent_preserves {s : CpuState} {c : ComponentName}
    {v : Nat} {s' : CpuState} (h : writeComponent s c v = .ok s') :
    s'.current_phase = s.current_phase ∧
    (s'.RTN_sequence = s.RTN_sequence ∨ s'.RTN_sequence = FETCH_LONG_OPERAND_RTNSteps) := by
  cases c <;>
    first
      | exact Except.noConfusion h
      | (injection h with h1; subst h1; exact ⟨rfl, Or.inl rfl⟩)
      | (replace h : cuWrite s v = .ok s' := h
         unfold cuWrite at h
         cases hlook : instructionSetGet (v >>> 8) with
         | none => rw [hlook] at h; exact Except.noConfusion h
         | some dd =>
           rw [hlook] at h
           injection h with h1
           subst h1
           cases hlong : dd.long_operand with
           | true => exact ⟨rfl, Or.inr rfl⟩
           | false => exact ⟨rfl, Or.inl rfl⟩)

/-- Storing into one of the six registers by name leaves the CU's phase and
RTN sequence untouched. -/
theorem setReg_preserves {s : CpuState} {n : ComponentName} {v : Nat}
    {s₂ : CpuState} (h : s.setReg n v = some s₂) :
    s₂.current_phase = s.current_phase ∧ s₂.RTN_sequence = s.RTN_sequence := by
  cases n <;>
    first
      | exact Option.noConfusion h
      | (injection h with h1; subst h1; exact ⟨rfl, rfl⟩)

/-- The register-operation offset computation leaves the CU's phase and RTN
sequence untouched. -/
theorem regOperationOffset_preserves {s : CpuState} {src : Option ComponentName}
    {offset : Nat} {s₁ : CpuState} (h : regOperationOffset s src = .ok (offset, s₁)) :
    s₁.current_phase = s.current_phase ∧ s₁.RTN_sequence = s.RTN_sequence := by
  unfold regOperationOffset at h
  split at h
  · injection h with h1
    injection h1 with h2 h3
    subst h3
    exact ⟨rfl, rfl⟩
  · split at h
    · exact Except.noConfusion h
    · split at h
      · exact Except.noConfusion h
      · split at h
        · exact Except.noConfusion h
        · rename readComponent _ _ = _ => hread
          injection h with h1
          injection h1 with h2 h3
          subst h3
          exact readComponent_preserves hread

/-- The simple-transfer handler preserves the phase and changes the RTN
sequence at most into the long-operand fetch. -/
theorem handleSimpleTransfer_preserves {s : CpuState} {src dst : ComponentName}
    {s' : CpuState} (h : handleSimpleTransfer s src dst = .ok s') :
    s'.current_phase = s.current_phase ∧
    (s'.RTN_sequence = s.RTN_sequence ∨ s'.RTN_sequence = FETCH_LONG_OPERAND_RTNSteps) := by
  unfold handleSimpleTransfer at h
  split at h
  · exact Except.noConfusion h
  · split at h
    · exact Except.noConfusion h
    · split at h
      · exact Except.noConfusion h
      · split at h
        · exact Except.noConfusion h
        · rename readComponent _ _ = _ => hread
          obtain ⟨hp, hq⟩ := readComponent_preserves hread
          obtain ⟨hp', hq'⟩ := writeComponent_preserves h
          refine ⟨hp'.trans hp, ?_⟩
          rcases hq' with hq' | hq'
          · exact Or.inl (hq'.trans hq)
          · exact Or.inr hq'

/-- Executing any single RTN step preserves the phase and changes the RTN
sequence at most into the long-operand fetch. -/
theorem execute_RTN_step_preserves {s : CpuState} {st : RTNStep}
    {s' : CpuState} (h : execute_RTN_step s st = .ok s') :
    s'.current_phase = s.current_phase ∧
    (s'.RTN_sequence = s.RTN_sequence ∨ s'.RTN_sequence = FETCH_LONG_OPERAND_RTNSteps) := by
  cases st with
  | simpleTransfer src dst => exact handleSimpleTransfer_preserves h
  | conditionalTransfer src dst cond =>
    replace h : handleConditionalTransfer s src dst cond = .ok s' := h
    unfold handleConditionalTransfer at h
    split at h
    · exact handleSimpleTransfer_preserves h
    · injection h with h1; subst h1; exact ⟨rfl, Or.inl rfl⟩
  | memoryAccess isAddr ctl =>
    replace h : handleMemoryAccess s isAddr ctl = .ok s' := h
    unfold handleMemoryAccess at h
    split at h
    · injection h with h1; subst h1; exact ⟨rfl, Or.inl rfl⟩
    · split at h
      · injection h with h1; subst h1; exact ⟨rfl, Or.inl rfl⟩
      · split at h
        · exact Except.noConfusion h
        · injection h with h1; subst h1; exact ⟨rfl, Or.inl rfl⟩
  | aluOperation src ctl =>
    replace h : handleAluOperation s src ctl = .ok s' := h
    unfold handleAluOperation at h
    split at h
    · exact Except.noConfusion h
    · split at h
      · exact Except.noConfusion h
      · split at h
        · exact Except.noConfusion h
        · split at h
          · exact Except.noConfusion h
          · rename readComponent _ _ = _ => hread
            injection h with h1
            subst h1
            obtain ⟨hp, hq⟩ := readComponent_preserves hread
            exact ⟨hp, Or.inl hq⟩
  | regOperation dst ctl src =>
    replace h : handleRegOperation s dst ctl src = .ok s' := h
    unfold handleRegOperation at h
    split at h
    · exact Except.noConfusion h
    · split at h
      · exact Except.noConfusion h
      · split at h
        · exact Except.noConfusion h
        · split at h
          · exact Except.noConfusion h
          · rename regOperationOffset _ _ = _ => hoff
            rename CpuState.setReg _ _ _ = some _ => hset
            injection h with h1
            subst h1
            obtain ⟨hp1, hq1⟩ := regOperationOffset_preserves hoff
            obtain ⟨hp2, hq2⟩ := setReg_preserves hset
            exact ⟨hp2.trans hp1, Or.inl (hq2.trans hq1)⟩

/-- One call of `step_RTNSeries` preserves the phase and changes the RTN
sequence at most into the long-operand fetch. -/
theorem step_RTNSeries_preserves {s : CpuState} {s' : CpuState} {b : Bool}
    (h : step_RTNSeries s = .ok (s', b)) :
    s'.current_phase = s.current_phase ∧
    (s'.RTN_sequence = s.RTN_sequence ∨ s'.RTN_sequence = FETCH_LONG_OPERAND_RTNSteps) := by
  unfold step_RTNSeries at h
  split at h
  · injection h with h1
    injection h1 with h2 h3
    subst h2
    exact ⟨rfl, Or.inl rfl⟩
  · split at h
    · split at h
      · exact Except.noConfusion h
      · rename execute_RTN_step _ _ = _ => hex
        injection h with h1
        injection h1 with h2 h3
        obtain ⟨hp, hq⟩ := execute_RTN_step_preserves hex
        rw [← h2]
        exact ⟨hp, hq⟩
    · injection h with h1
      injection h1 with h2 h3
      subst h2
      exact ⟨rfl, Or.inl rfl⟩

/-- Entering a phase keeps the stored phase field and yields an empty RTN
sequence only when the phase being entered is EXECUTE. -/
theorem enter_phase_spec {s : CpuState} {ph : CyclePhase} {s' : CpuState}
    (h : enter_phase s ph = .ok s') :
    s'.current_phase = s.current_phase ∧
    (s'.RTN_sequence = [] → ph = CyclePhase.EXECUTE) := by
  cases ph with
  | FETCH =>
    injection h with h1
    subst h1
    exact ⟨rfl, fun hc => List.noConfusion hc⟩
  | DECODE =>
    injection h with h1
    subst h1
    exact ⟨rfl, fun hc => List.noConfusion hc⟩
  | EXECUTE =>
    unfold enter_phase at h
    split at h
    · rename CyclePhase.EXECUTE = CyclePhase.FETCH => he
      exact CyclePhase.noConfusion he
    · rename CyclePhase.EXECUTE = CyclePhase.DECODE => he
      exact CyclePhase.noConfusion he
    · split at h
      · exact Except.noConfusion h
      · split at h
        · exact Except.noConfusion h
        · injection h with h1
          subst h1
          exact ⟨rfl, fun _ => rfl⟩

/-- One `step_cycle` preserves the session invariant, and a step that
reports halt leaves the shared iterator at its fresh-interpreter state
(FETCH is the next phase it will yield). -/
theorem step_cycle_inv {ss ss' : SessState} {b : Bool}
    (hInv : SessInv ss) (h : step_cycle ss = .ok (ss', b)) :
    SessInv ss' ∧ (b = true → ss'.2 = sessionStart) := by
  obtain ⟨hit, hemp⟩ := hInv
  unfold step_cycle at h
  split at h
  · rename_i hseq
    injection h with h1
    injection h1 with h2 h3
    subst h2
    refine ⟨⟨hit, hemp⟩, fun _ => ?_⟩
    rw [hit, hemp hseq]
    rfl
  · rename_i hseq
    split at h
    · split at h
      · exact Except.noConfusion h
      · rename enter_phase _ _ = _ => hep
        obtain ⟨hp2, he2⟩ := enter_phase_spec hep
        split at h
        · rename_i hseq2
          injection h with h1
          injection h1 with h2 h3
          subst h2
          have hexe : ss.2 = CyclePhase.EXECUTE := he2 hseq2
          refine ⟨⟨?_, fun _ => ?_⟩, fun _ => ?_⟩
          · show CyclePhase.next ss.2 = _
            rw [hp2]
          · rw [hp2]
            exact hexe
          · show CyclePhase.next ss.2 = sessionStart
            rw [hexe]
            rfl
        · rename_i hseq2
          split at h
          · exact Except.noConfusion h
          · rename step_RTNSeries _ = _ => hst
            injection h with h1
            injection h1 with h2 h3
            subst h2 h3
            obtain ⟨hp3, hq3⟩ := step_RTNSeries_preserves hst
            refine ⟨⟨?_, ?_⟩, fun hc => Bool.noConfusion hc⟩
            · show CyclePhase.next ss.2 = _
              rw [hp3, hp2]
            · intro hc
              rcases hq3 with hq3 | hq3
              · exact absurd (hq3 ▸ hc) hseq2
              · rw [hq3] at hc
                exact absurd hc (fun hcc => List.noConfusion hcc)
    · split at h
      · exact Except.noConfusion h
      · rename step_RTNSeries _ = _ => hst
        injection h with h1
        injection h1 with h2 h3
        subst h2 h3
        obtain ⟨hp3, hq3⟩ := step_RTNSeries_preserves hst
        refine ⟨⟨?_, ?_⟩, fun hc => Bool.noConfusion hc⟩
        · show ss.2 = _
          rw [hp3]
          exact hit
        · intro hc
          rcases hq3 with hq3 | hq3
          · exact absurd (hq3 ▸ hc) hseq
          · rw [hq3] at hc
            exact absurd hc (fun hcc => List.noConfusion hcc)

/-- `CPU.step` preserves the session invariant; a halting step leaves the
iterator at the fresh-interpreter state. -/
theorem CPU_step_inv {ss ss' : SessState} {b : Bool}
    (hInv : SessInv ss) (h : CPU_step ss = .ok (ss', b)) :
    SessInv ss' ∧ (b = true → ss'.2 = sessionStart) := by
  unfold CPU_step at h
  split at h
  · exact Except.noConfusion h
  · rename step_cycle _ = _ => hsc
    injection h with h1
    injection h1 with h2 h3
    subst h2 h3
    obtain ⟨⟨hi1, hi2⟩, hhalt⟩ := step_cycle_inv hInv hsc
    exact ⟨⟨hi1, hi2⟩, hhalt⟩

/-- Iterating `CPU.step` preserves the session invariant, and if the last
step reported halt the iterator has been realigned to its
fresh-interpreter state. -/
theorem stepsN_inv {ss : SessState} {n : Nat} {ss' : SessState} {b : Bool}
    (hInv : SessInv ss) (h : stepsN ss n = .ok (ss', b)) :
    SessInv ss' ∧ (b = true → ss'.2 = sessionStart) := by
  induction n generalizing ss' b with
  | zero =>
    injection h with h1
    injection h1 with h2 h3
    subst h2 h3
    exact ⟨hInv, fun hc => Bool.noConfusion hc⟩
  | succ n ih =>
    unfold stepsN at h
    split at h
    · exact Except.noConfusion h
    · rename stepsN _ _ = _ => hmid
      exact CPU_step_inv (ih hmid).1 h

/-- `load_program` touches only the memory, its address component and PC. -/
theorem load_program_preserves (s : CpuState) (p : List Nat) :
    (load_program s p).current_phase = s.current_phase
    ∧ (load_program s p).RTN_sequence = s.RTN_sequence := by
  have fold : ∀ (l : List (Nat × Nat)) (s : CpuState),
      (List.foldl load_program_store s l).current_phase = s.current_phase
      ∧ (List.foldl load_program_store s l).RTN_sequence = s.RTN_sequence := by
    intro l
    induction l with
    | nil => exact fun s => ⟨rfl, rfl⟩
    | cons a l ih => exact fun s => ih (load_program_store s a)
  exact fold p.enum { s with ramAddress := 0 }

/-- A CPU constructed at the fresh-interpreter iterator state satisfies the
session invariant. -/
theorem mkRun_inv {prog input : List Nat} {ss : SessState}
    (h : mkRun prog input sessionStart = .ok ss) : SessInv ss := by
  have h' : Except.ok ((load_program
      { mkCpuFetchState input with pc := wordMask 0 } prog), CyclePhase.DECODE)
      = Except.ok (ε := CpuErr) ss := h
  injection h' with h1
  subst h1
  obtain ⟨hp, hq⟩ := load_program_preserves
    { mkCpuFetchState input with pc := wordMask 0 } prog
  constructor
  · show CyclePhase.DECODE = _
    rw [hp]
    rfl
  · intro hc
    rw [hq] at hc
    exact absurd hc (fun hcc => List.noConfusion hcc)

/-- C3: CPU execution is two-run deterministic in a session.  If a freshly
constructed CPU (drawing its initial phase from the shared `CYCLE_PHASES`
iterator of a fresh interpreter) runs a program to halt, the iterator ends
realigned at its starting state, so a second fresh construction in the same
session starts identically and its whole register/memory/IO trace equals the
first run's. -/
theorem c3_two_run_determinism (prog input : List Nat) (n : Nat)
    (h : haltedAfter (mkRun prog input sessionStart) n = true) :
    iterAfterRun (mkRun prog input sessionStart) n = sessionStart
    ∧ ∀ m, traceObs (mkRun prog input
          (iterAfterRun (mkRun prog input sessionStart) n)) m
        = traceObs (mkRun prog input sessionStart) m := by
  rcases hmk : mkRun prog input sessionStart with e | ss
  · unfold haltedAfter at h
    rw [hmk] at h
    simp only [Except.bind] at h
    exact Bool.noConfusion h
  · rcases hst : stepsN ss n with e | p
    · unfold haltedAfter at h
      rw [hmk] at h
      simp only [Except.bind] at h
      rw [hst] at h
      exact Bool.noConfusion h
    · obtain ⟨ss', b⟩ := p
      have hb : b = true := by
        unfold haltedAfter at h
        rw [hmk] at h
        simp only [Except.bind] at h
        rw [hst] at h
        exact h
      have hiter : iterAfterRun (mkRun prog input sessionStart) n = ss'.2 := by
        unfold iterAfterRun
        rw [hmk]
        simp only [Except.bind]
        rw [hst]
      have hfinal : ss'.2 = sessionStart :=
        (stepsN_inv (mkRun_inv hmk) hst).2 hb
      rw [hmk] at hiter
      have hzero : iterAfterRun (Except.ok ss) n = sessionStart :=
        hiter.trans hfinal
      exact ⟨hzero, fun m => by rw [hzero, hmk]⟩

/-- C3 witness: the single-instruction program `END` halts at step 7 of a
fresh session; the iterator is back at FETCH and the second run's trace
agrees with the first (checked at step 11). -/
theorem c3_witness :
    haltedAfter (mkRun [0x1500] defaultIOContents sessionStart) 7 = true
    ∧ iterAfterRun (mkRun [0x1500] defaultIOContents sessionStart) 7 = sessionStart
    ∧ traceObs (mkRun [0x1500] defaultIOContents
          (iterAfterRun (mkRun [0x1500] defaultIOContents sessionStart) 7)) 11
        = traceObs (mkRun [0x1500] defaultIOContents sessionStart) 11 :=
  ⟨rfl, (c3_two_run_determinism [0x1500] defaultIOContents 7 rfl).1,
    (c3_two_run_determinism [0x1500] defaultIOContents 7 rfl).2 11⟩

end CIE
